import Mathlib

/-!
# Speaker_Playground: serpentine half-tube generator (src/main.js)

A shallow embedding of the geometry kernel of `src/main.js` and of the mesh
lifecycle it drives.

Number model.  A JavaScript number is either a finite value, carried as an
exact rational, or one of `Infinity`, `-Infinity`, `NaN`.  Arithmetic on finite
values is exact: rounding and overflow of binary64 arithmetic are not part of
the model.  `Math.PI` is the binary64 constant `3.141592653589793`, that is
`884279719003555 / 2 ^ 48`.
-/

namespace SpeakerPlayground

/-! ## Numbers -/

/-- A JavaScript number: a finite value or one of the three non-finite ones. -/
inductive JSNum where
  | fin (q : ℚ)
  | posInf
  | negInf
  | nan
deriving DecidableEq

/-- The constant `Math.PI`, the binary64 number nearest to pi. -/
def MathPI : ℚ := 884279719003555 / 281474976710656

/-! ## Parameter sanitising and derived layout -/

/-- The object returned by `sanitizeParameters`. -/
structure GeometryParameters where
  hz : ℚ
  face : ℚ
  hole : ℚ
deriving DecidableEq

/-- The guard `!Number.isFinite(v) || v <= 0` of `sanitizeParameters`
(main.js 397-399): the value `v` itself when it is finite and positive, the
replacement `dflt` otherwise. -/
def finitePositiveOr (v : JSNum) (dflt : ℚ) : ℚ :=
  match v with
  | .fin q => if q ≤ 0 then dflt else q
  | _ => dflt

/-- The function `sanitizeParameters` (main.js 392-405). -/
def sanitizeParameters (rawHzLength rawFaceSize rawHoleSize : JSNum) : GeometryParameters :=
  let cleanHz : ℚ := finitePositiveOr rawHzLength 85.75
  let cleanHole : ℚ := finitePositiveOr rawHoleSize 0.5
  let cleanFace : ℚ := finitePositiveOr rawFaceSize (cleanHole * 1.4)
  -- Ensure face is larger than hole
  let cleanFace : ℚ := if cleanFace ≤ cleanHole * 1.1 then cleanHole * 1.4 else cleanFace
  { hz := cleanHz, face := cleanFace, hole := cleanHole }

/-- The function `getLineSegmentLength` (main.js 281-287). -/
def getLineSegmentLength (hzlength bendRadius : ℚ) : ℚ :=
  let arcLength := MathPI * bendRadius
  let totalArcLength := 3 * arcLength
  let straightLineLength := hzlength - totalArcLength
  straightLineLength / 4

/-- The constant `desiredSurfaceGap` of `addSerpentineCopies` (main.js 415). -/
def desiredSurfaceGap : ℚ := 1

/-- The quantities `addSerpentineCopies` derives before it builds anything
(main.js 419-432). -/
structure DerivedLayout where
  bendRadius : ℚ
  verticalGap : ℚ
  lineSegmentLength : ℚ
deriving DecidableEq

/-- The derivation of `bendRadius`, `verticalGap` and `lineSegmentLength` in
`addSerpentineCopies` (main.js 419, 425, 432). -/
def deriveLayout (p : GeometryParameters) : DerivedLayout :=
  let bendRadius := (desiredSurfaceGap + p.face) / 2
  let verticalGap := (2 * bendRadius) + desiredSurfaceGap + p.face
  let lineSegmentLength := getLineSegmentLength p.hz bendRadius
  { bendRadius := bendRadius, verticalGap := verticalGap, lineSegmentLength := lineSegmentLength }

/-! ## Centerline curves -/

/-- A point of three-dimensional space (`THREE.Vector3`). -/
structure Vector3 where
  x : ℚ
  y : ℚ
  z : ℚ
deriving DecidableEq

/-- The library functions `Math.sin` and `Math.cos`, taken as parameters: their
values at the sampled angles are not rational. -/
structure MathTrig where
  sin : ℚ → ℚ
  cos : ℚ → ℚ

/-- A spline through control points (`THREE.CatmullRomCurve3`). -/
structure CatmullRomCurve3 where
  points : List Vector3
deriving DecidableEq

/-- The arc loop of `createSerpentineCurve` (main.js 110-117):
`for (let t = 0; t <= Math.PI; t += Math.PI / 32)`, skipping `t === 0` and
`t === Math.PI`.  The first argument bounds the number of iterations. -/
def serpentineArcLoop (m : MathTrig) (lineLength yOffset offset bendRadius : ℚ) :
    Nat → ℚ → List Vector3
  | 0, _ => []
  | fuel + 1, t =>
    if t ≤ MathPI then
      (if t = 0 ∨ t = MathPI then []
       else [{ x := lineLength / 2 + bendRadius * m.sin t,
               y := offset + yOffset - bendRadius * (1 - m.cos t),
               z := 0 }])
        ++ serpentineArcLoop m lineLength yOffset offset bendRadius fuel (t + MathPI / 32)
    else []

/-- The function `createSerpentineCurve` (main.js 103-124). -/
def createSerpentineCurve (m : MathTrig) (lineLength yOffset offset bendRadius : ℚ) :
    CatmullRomCurve3 :=
  -- Top line
  let points : List Vector3 :=
    [{ x := -lineLength / 2, y := offset + yOffset, z := 0 },
     { x := lineLength / 2, y := offset + yOffset, z := 0 }]
  -- Top arc (rightward curve down)
  let points := points ++ serpentineArcLoop m lineLength yOffset offset bendRadius 64 0
  -- Bottom line
  let points := points ++
    [{ x := lineLength / 2, y := offset + yOffset - 2 * bendRadius, z := 0 },
     { x := -lineLength / 2, y := offset + yOffset - 2 * bendRadius, z := 0 }]
  { points := points }

/-- The constant `Number.EPSILON`, `2 ^ (-52)`. -/
def NumberEPSILON : ℚ := 1 / 4503599627370496

/-- The sweep angle of `EllipseCurve.getPoint` (three.js r155): the difference
`aEndAngle - aStartAngle` brought into `0 .. 2 PI` by the two `while` loops
(written in closed form), then the `samePoints` and `aClockwise` adjustments. -/
def ellipseDeltaAngle (aStartAngle aEndAngle : ℚ) (aClockwise : Bool) : ℚ :=
  let twoPi := MathPI * 2
  let deltaAngle := aEndAngle - aStartAngle
  let samePoints : Bool := decide (|deltaAngle| < NumberEPSILON)
  -- while (deltaAngle < 0) deltaAngle += twoPi
  let deltaAngle := if deltaAngle < 0 then deltaAngle + ⌈-deltaAngle / twoPi⌉ * twoPi
    else deltaAngle
  -- while (deltaAngle > twoPi) deltaAngle -= twoPi
  let deltaAngle := if deltaAngle > twoPi
    then deltaAngle - ⌈(deltaAngle - twoPi) / twoPi⌉ * twoPi else deltaAngle
  let deltaAngle := if deltaAngle < NumberEPSILON then (if samePoints then 0 else twoPi)
    else deltaAngle
  if aClockwise = true ∧ samePoints = false then
    (if deltaAngle = twoPi then -twoPi else deltaAngle - twoPi)
  else deltaAngle

/-- The method `getPoint` of `THREE.ArcCurve` (three.js r155, `EllipseCurve`
with equal radii and no rotation). -/
def arcCurveGetPoint (m : MathTrig) (aX aY aRadius aStartAngle aEndAngle : ℚ)
    (aClockwise : Bool) (t : ℚ) : ℚ × ℚ :=
  let angle := aStartAngle + t * ellipseDeltaAngle aStartAngle aEndAngle aClockwise
  (aX + aRadius * m.cos angle, aY + aRadius * m.sin angle)

/-- The method `getPoints(divisions)` of a curve (three.js r155): the points at
`t = d / divisions` for `d = 0 .. divisions`. -/
def arcCurveGetPoints (m : MathTrig) (aX aY aRadius aStartAngle aEndAngle : ℚ)
    (aClockwise : Bool) (divisions : Nat) : List (ℚ × ℚ) :=
  (List.range (divisions + 1)).map fun (d : Nat) =>
    arcCurveGetPoint m aX aY aRadius aStartAngle aEndAngle aClockwise ((d : ℚ) / (divisions : ℚ))

/-- A straight segment (`THREE.LineCurve3`). -/
structure LineCurve3 where
  v1 : Vector3
  v2 : Vector3
deriving DecidableEq

/-- A chain of curves (`THREE.CurvePath`); here every member is a `LineCurve3`. -/
structure CurvePath where
  curves : List LineCurve3
deriving DecidableEq

/-- The first point of a curve path, the start of its first member. -/
def CurvePath.firstPoint (c : CurvePath) : Option Vector3 := c.curves.head?.map LineCurve3.v1

/-- The last point of a curve path, the end of its last member. -/
def CurvePath.lastPoint (c : CurvePath) : Option Vector3 := c.curves.getLast?.map LineCurve3.v2

/-- The function `createMiddleConnectingCurve` (main.js 126-148). -/
def createMiddleConnectingCurve (m : MathTrig)
    (lineLength yOffsetTop yOffsetBottom offset bendRadius : ℚ) : CurvePath :=
  let x := offset - lineLength / 2
  let y0 := offset + yOffsetTop - 2 * bendRadius
  let y1 := offset + yOffsetBottom
  let r := |y0 - y1| / 2
  let centerX := x - r
  let centerY := (y0 + y1) / 2
  let start : Vector3 := { x := x, y := y0, z := 0 }
  let endPoint : Vector3 := { x := x, y := y1, z := 0 }
  let arcPoints : List Vector3 :=
    (arcCurveGetPoints m centerX centerY r (MathPI / 2) (3 * MathPI / 2) false 32).map
      fun p => { x := p.1, y := p.2, z := 0 }
  let first := arcPoints.headD { x := 0, y := 0, z := 0 }
  let last := arcPoints.getLastD { x := 0, y := 0, z := 0 }
  { curves := [{ v1 := start, v2 := first }]
      ++ List.zipWith LineCurve3.mk arcPoints arcPoints.tail
      ++ [{ v1 := last, v2 := endPoint }] }

/-- The three centerline curves of one rebuild. -/
structure Centerline where
  curve1 : CatmullRomCurve3
  curve2 : CatmullRomCurve3
  middleCurve : CurvePath
deriving DecidableEq

/-- The curve construction of `addSerpentineCopies` (main.js 422, 436-438),
with `offset = 0`. -/
def buildCurves (m : MathTrig) (d : DerivedLayout) : Centerline :=
  let offset : ℚ := 0
  { curve1 := createSerpentineCurve m d.lineSegmentLength (d.verticalGap / 2) offset d.bendRadius,
    curve2 := createSerpentineCurve m d.lineSegmentLength (-d.verticalGap / 2) offset d.bendRadius,
    middleCurve := createMiddleConnectingCurve m d.lineSegmentLength (d.verticalGap / 2)
      (-d.verticalGap / 2) offset d.bendRadius }

/-! ## Cross-section outlines

Every angle passed to `absarc` by the two generators is a whole multiple of
`Math.PI / 2`.  The outline model reads `Math.PI` as pi here, stores an angle as
its number of quarter turns, and takes the exact values of sine and cosine at
quarter turns, so that an arc begins exactly where the line before it ends. -/

/-- A point of the plane (`THREE.Vector2`). -/
structure Vector2 where
  x : ℚ
  y : ℚ
deriving DecidableEq

/-- The cosine of `k` quarter turns. -/
def cosQuarter (k : ℤ) : ℚ := if k % 4 = 0 then 1 else if k % 4 = 2 then -1 else 0

/-- The sine of `k` quarter turns. -/
def sinQuarter (k : ℤ) : ℚ := if k % 4 = 1 then 1 else if k % 4 = 3 then -1 else 0

/-- The sweep angle of `EllipseCurve.getPoint` (three.js r155) in quarter
turns, `twoPi` being 4: `while (deltaAngle < 0) deltaAngle += twoPi`,
`while (deltaAngle > twoPi) deltaAngle -= twoPi` (both in closed form), then the
`samePoints` and `aClockwise` adjustments.  For whole numbers of quarter turns
`Math.abs(deltaAngle) < Number.EPSILON` says that the difference is zero. -/
def quarterDeltaAngle (aStartAngle aEndAngle : ℤ) (aClockwise : Bool) : ℤ :=
  let twoPi : ℤ := 4
  let deltaAngle := aEndAngle - aStartAngle
  let samePoints : Bool := decide (deltaAngle = 0)
  let deltaAngle := if deltaAngle < 0 then deltaAngle % twoPi else deltaAngle
  let deltaAngle := if deltaAngle > twoPi then (deltaAngle - 1) % twoPi + 1 else deltaAngle
  let deltaAngle := if deltaAngle ≤ 0 then (if samePoints then 0 else twoPi) else deltaAngle
  if aClockwise = true ∧ samePoints = false then
    (if deltaAngle = twoPi then -twoPi else deltaAngle - twoPi)
  else deltaAngle

/-- A member of a path: a `THREE.LineCurve` or the `THREE.EllipseCurve` that
`absarc` creates (equal radii, no rotation, angles in quarter turns). -/
inductive PathCurve where
  | line (v1 v2 : Vector2)
  | ellipse (aX aY radius : ℚ) (aStartAngle aEndAngle : ℤ) (aClockwise : Bool)
deriving DecidableEq

/-- A `THREE.Shape` under construction: its curves and its current point. -/
structure Shape where
  curves : List PathCurve
  currentPoint : Vector2
deriving DecidableEq

/-- The constructor `new THREE.Shape()`. -/
def Shape.new : Shape := { curves := [], currentPoint := { x := 0, y := 0 } }

/-- The method `Path.moveTo` (three.js r155). -/
def Shape.moveTo (s : Shape) (x y : ℚ) : Shape :=
  { s with currentPoint := { x := x, y := y } }

/-- The method `Path.lineTo` (three.js r155). -/
def Shape.lineTo (s : Shape) (x y : ℚ) : Shape :=
  { curves := s.curves ++ [PathCurve.line s.currentPoint { x := x, y := y }],
    currentPoint := { x := x, y := y } }

/-- The method `Path.absarc` (three.js r155, through `absellipse`): when a
previous curve is present and the arc does not begin at the current point, a
joining line is added first; the current point becomes the end of the arc. -/
def Shape.absarc (s : Shape) (aX aY aRadius : ℚ) (aStartAngle aEndAngle : ℤ)
    (aClockwise : Bool) : Shape :=
  let firstPoint : Vector2 :=
    { x := aX + aRadius * cosQuarter aStartAngle, y := aY + aRadius * sinQuarter aStartAngle }
  let s := if s.curves.length > 0 ∧ firstPoint ≠ s.currentPoint
    then s.lineTo firstPoint.x firstPoint.y else s
  let lastAngle := aStartAngle + quarterDeltaAngle aStartAngle aEndAngle aClockwise
  { curves := s.curves ++ [PathCurve.ellipse aX aY aRadius aStartAngle aEndAngle aClockwise],
    currentPoint :=
      { x := aX + aRadius * cosQuarter lastAngle, y := aY + aRadius * sinQuarter lastAngle } }

/-- The function `createLeftHalfCShape` (main.js 152-189).  The angles
`-Math.PI/2`, `Math.PI/2`, `Math.PI`, `1.5 * Math.PI` are `-1`, `1`, `2`, `3`
quarter turns. -/
def createLeftHalfCShape (outerSize innerSize : ℚ) : Shape :=
  -- Clamp dimensions to avoid degenerate geometry
  let minSize : ℚ := 0.05
  let outerSize := max outerSize minSize
  let innerSize := max innerSize (minSize * 0.5)
  let s := outerSize / 2
  -- Corner radius at the exterior
  let r := max (outerSize / 4) (minSize * 0.25)
  let innerRadius := max (innerSize / 2) (minSize * 0.25)
  let shape := Shape.new
  -- Start at bottom-left corner
  let shape := shape.moveTo (-s + r) (-s)
  -- Bottom edge to center
  let shape := shape.lineTo 0 (-s)
  -- Right edge (split line) going up to hole level
  let shape := shape.lineTo 0 (-innerRadius)
  -- Go around the left half of the hole
  let shape := shape.absarc 0 0 innerRadius (-1) 1 true
  -- Continue up the split line
  let shape := shape.lineTo 0 s
  -- Top edge from center to left
  let shape := shape.lineTo (-s + r) s
  -- Left side with rounded corners
  let shape := shape.absarc (-s + r) (s - r) r 1 2 false
  let shape := shape.lineTo (-s) (-s + r)
  let shape := shape.absarc (-s + r) (-s + r) r 2 3 false
  -- Close the path back to start
  shape.lineTo (-s + r) (-s)

/-- The function `createRightHalfCShape` (main.js 191-225).  The angles
`-Math.PI/2`, `0`, `Math.PI/2`, `3*Math.PI/2` are `-1`, `0`, `1`, `3` quarter
turns. -/
def createRightHalfCShape (outerSize innerSize : ℚ) : Shape :=
  -- Clamp dimensions to avoid degenerate geometry
  let minSize : ℚ := 0.05
  let outerSize := max outerSize minSize
  let innerSize := max innerSize (minSize * 0.5)
  let s := outerSize / 2
  let r := max (outerSize / 4) (minSize * 0.25)
  let innerRadius := max (innerSize / 2) (minSize * 0.25)
  let shape := Shape.new
  -- Start at bottom-center
  let shape := shape.moveTo 0 (-s)
  -- Bottom edge to right
  let shape := shape.lineTo (s - r) (-s)
  -- Right side with rounded corners
  let shape := shape.absarc (s - r) (-s + r) r (-1) 0 false
  let shape := shape.lineTo s (s - r)
  let shape := shape.absarc (s - r) (s - r) r 0 1 false
  -- Top edge from right to center
  let shape := shape.lineTo 0 s
  -- Left edge (split line) going down to hole level
  let shape := shape.lineTo 0 innerRadius
  -- Go around the right half of the hole
  let shape := shape.absarc 0 0 innerRadius 1 3 true
  -- Continue down the split line
  shape.lineTo 0 (-s)

/-- The exterior half-width `s` of both generators (main.js 155, 158). -/
def cShapeS (outerSize : ℚ) : ℚ := max outerSize 0.05 / 2

/-- The corner radius `r` of both generators (main.js 155, 160). -/
def cShapeR (outerSize : ℚ) : ℚ := max (max outerSize 0.05 / 4) (0.05 * 0.25)

/-- The bore radius `innerRadius` of both generators (main.js 156, 161). -/
def cShapeInnerRadius (innerSize : ℚ) : ℚ := max (max innerSize (0.05 * 0.5) / 2) (0.05 * 0.25)

/-- The six variables that hold the tube meshes (main.js 299). -/
inductive TubeSlot where
  | tube1Left | tube1Right | tube2Left | tube2Right | middleTubeLeft | middleTubeRight
deriving DecidableEq

/-- A tube mesh: the `THREE.Mesh` made by `createLeftHalfTube` or
`createRightHalfTube`, with its own `ExtrudeGeometry` and the material it was
given. -/
structure TubeMesh where
  id : Nat
  geometry : Nat
  material : Nat
  slot : TubeSlot
deriving DecidableEq

/-- A child of `group`: a tube mesh, or the object held by `cap1` or `cap2`. -/
inductive Child where
  | tube (m : TubeMesh)
  | cap1
  | cap2
deriving DecidableEq

/-- A clone of the cap template: the material of its meshes (`none` for the
material that came with the template), its position, the two rotation angles
that `ensureCaps` sets, and its uniform scale. -/
structure Cap where
  material : Option Nat
  position : Vector3
  rotationX : ℚ
  rotationZ : ℚ
  scale : ℚ
deriving DecidableEq

/-- The result of `capTemplate.clone(true)`. -/
def capTemplateClone : Cap :=
  { material := none, position := { x := 0, y := 0, z := 0 }, rotationX := 0, rotationZ := 0,
    scale := 1 }

/-- The arguments of one call `ensureCaps(lineSegmentLength, verticalGap,
holeSize, tubeMaterial)`, as captured by the closure passed to `then`. -/
structure CapRequest where
  lineSegmentLength : ℚ
  verticalGap : ℚ
  holeSize : ℚ
  tubeMaterial : Nat
deriving DecidableEq

/-- The state of a promise. -/
inductive PromiseStatus where
  | pending
  | fulfilled
  | rejected
deriving DecidableEq

/-- The promise stored in `capLoadPromise`, with the `then` reactions registered
on it while it is pending, in order of registration. -/
structure LoadPromise where
  id : Nat
  status : PromiseStatus
  reactions : List CapRequest
deriving DecidableEq

/-- The module state the lifecycle code reads and writes (main.js 296-305), and
the bookkeeping of what has been released and loaded. -/
structure State where
  /-- The children of `group`. -/
  group : List Child
  /-- The array `tubes`. -/
  tubes : List TubeMesh
  cap1 : Option Cap
  cap2 : Option Cap
  /-- Whether `capTemplate` holds the loaded object (`false`: it is `null`). -/
  capTemplate : Bool
  capLoadPromise : Option LoadPromise
  /-- The number of calls of `objLoader.load` so far. -/
  loadCalls : Nat
  /-- The geometries on which `dispose()` has been called. -/
  disposedGeometries : List Nat
  /-- The materials on which `dispose()` has been called. -/
  disposedMaterials : List Nat
  /-- The next unused identity. -/
  nextId : Nat
deriving DecidableEq

/-- The state when the module has been loaded and nothing has been built. -/
def State.init : State :=
  { group := [], tubes := [], cap1 := none, cap2 := none, capTemplate := false,
    capLoadPromise := none, loadCalls := 0, disposedGeometries := [], disposedMaterials := [],
    nextId := 0 }

/-- What `loadCapTemplate` returns: `Promise.resolve(capTemplate)`, or the
promise stored in `capLoadPromise`, named by its identity. -/
inductive LoadResult where
  | resolvedTemplate
  | promise (id : Nat)
deriving DecidableEq

/-- The function `loadCapTemplate` (main.js 307-325): the result and the state
after the call.  A new promise is created, and `objLoader.load` called, only
when neither the template nor a promise is stored. -/
def loadCapTemplate (s : State) : LoadResult × State :=
  if s.capTemplate = true then (.resolvedTemplate, s)
  else
    match s.capLoadPromise with
    | some p => (.promise p.id, s)
    | none =>
      (.promise s.nextId,
        { s with
          capLoadPromise := some { id := s.nextId, status := .pending, reactions := [] },
          loadCalls := s.loadCalls + 1,
          nextId := s.nextId + 1 })

/-- The function `detachCapsFromGroup` (main.js 327-330); `cap.parent === group`
says that the cap is a child of `group`, and `group.remove` takes it out. -/
def detachCapsFromGroup (s : State) : State :=
  let s := if s.cap1.isSome ∧ Child.cap1 ∈ s.group
    then { s with group := s.group.erase Child.cap1 } else s
  if s.cap2.isSome ∧ Child.cap2 ∈ s.group
    then { s with group := s.group.erase Child.cap2 } else s

/-- The function `disposeMesh` (main.js 332-337) on a tube mesh. -/
def disposeMesh (s : State) (mesh : TubeMesh) : State :=
  { s with
    disposedGeometries := s.disposedGeometries ++ [mesh.geometry],
    disposedMaterials := s.disposedMaterials ++ [mesh.material] }

/-- One turn of the loop of `disposeExistingTubes` for the popped `mesh`
(main.js 343-344). -/
def disposeTube (s : State) (mesh : TubeMesh) : State :=
  let s := if Child.tube mesh ∈ s.group
    then { s with group := s.group.erase (Child.tube mesh) } else s
  disposeMesh s mesh

/-- The function `disposeExistingTubes` (main.js 339-346): `tubes.pop()` takes
the meshes from the end of the array until it is empty. -/
def disposeExistingTubes (s : State) : State :=
  s.tubes.reverse.foldl disposeTube { s with tubes := [] }

/-- The function `ensureCaps` (main.js 348-390). -/
def ensureCaps (s : State) (req : CapRequest) : State :=
  if s.capTemplate = false then s -- Will be handled once template loads
  else
    let cap1 := s.cap1.getD capTemplateClone
    let cap2 := s.cap2.getD capTemplateClone
    -- Update materials to match current tube material
    let cap1 := { cap1 with material := some req.tubeMaterial }
    let cap2 := { cap2 with material := some req.tubeMaterial }
    -- Set transforms
    let offsetX := -req.lineSegmentLength / 2
    let offsety := req.verticalGap / 2
    let offsetZ : ℚ := 0
    let offsety2 := -req.verticalGap
    let cap1 : Cap :=
      { cap1 with
        position := { x := offsetX, y := offsety, z := offsetZ },
        rotationX := MathPI / 2, rotationZ := MathPI / 2, scale := 0.2 * req.holeSize }
    let cap2 : Cap :=
      { cap2 with
        position := { x := offsetX, y := offsety2, z := offsetZ },
        rotationX := MathPI / 2, rotationZ := MathPI / 2, scale := 0.2 * req.holeSize }
    -- Add to group if not already present
    let group := if Child.cap1 ∈ s.group then s.group else s.group ++ [Child.cap1]
    let group := if Child.cap2 ∈ group then group else group ++ [Child.cap2]
    { s with cap1 := some cap1, cap2 := some cap2, group := group }

/-- The call `loadCapTemplate().then(() => ensureCaps(...)).catch(() => {})`
(main.js 446-448), made only while `capTemplate` is `null`.  On a pending
promise the reaction is registered.  On a rejected one the reaction never runs.
On a fulfilled one it would run right after the rebuild, where `ensureCaps`
returns at once because `capTemplate` is still `null`. -/
def loadCapTemplateThenEnsureCaps (s : State) (req : CapRequest) : State :=
  let s := (loadCapTemplate s).2
  match s.capLoadPromise with
  | some p =>
    match p.status with
    | .pending => { s with capLoadPromise := some { p with reactions := p.reactions ++ [req] } }
    | _ => s
  | none => s

/-- The six tube meshes a rebuild creates with the shared material
`tubeMaterial` (main.js 452-457), taking identities from `base` on: each call of
`createLeftHalfTube` or `createRightHalfTube` makes one geometry and one mesh. -/
def createTubes (base tubeMaterial : Nat) : List TubeMesh :=
  [ { geometry := base, id := base + 1, material := tubeMaterial, slot := .tube1Left },
    { geometry := base + 2, id := base + 3, material := tubeMaterial, slot := .tube1Right },
    { geometry := base + 4, id := base + 5, material := tubeMaterial, slot := .tube2Left },
    { geometry := base + 6, id := base + 7, material := tubeMaterial, slot := .tube2Right },
    { geometry := base + 8, id := base + 9, material := tubeMaterial, slot := .middleTubeLeft },
    { geometry := base + 10, id := base + 11, material := tubeMaterial,
      slot := .middleTubeRight } ]

/-- The second part of `addSerpentineCopies` (main.js 440-475), run when the
layout is not degenerate: the shared material, the caps, the six tube meshes,
their attachment and tracking.  The axes rebuilt afterwards belong to `scene`,
not to `group`. -/
def buildAndPublish (s : State) (p : GeometryParameters) (d : DerivedLayout) : State :=
  -- Create shared material
  let tubeMaterial := s.nextId
  let s := { s with nextId := s.nextId + 1 }
  let req : CapRequest :=
    { lineSegmentLength := d.lineSegmentLength, verticalGap := d.verticalGap,
      holeSize := p.hole, tubeMaterial := tubeMaterial }
  -- Ensure caps are loaded once and then reused
  let s := if s.capTemplate = true then ensureCaps s req
    else loadCapTemplateThenEnsureCaps s req
  -- Create both left and right halves
  let created := createTubes s.nextId tubeMaterial
  -- Add both halves to the group, track tubes for future disposal
  { s with
    group := s.group ++ created.map Child.tube,
    tubes := s.tubes ++ created,
    nextId := s.nextId + 12 }

/-- The function `addSerpentineCopies` (main.js 410-490): sanitising, layout,
detaching and disposing, the return on a degenerate layout, and then
`buildAndPublish`. -/
def addSerpentineCopies (s : State) (hzlength faceSize holeSize : JSNum) : State :=
  let p := sanitizeParameters hzlength faceSize holeSize
  let d := deriveLayout p
  -- Detach caps before disposing tubes so they don't reference disposed materials
  let s := detachCapsFromGroup s
  -- Remove previously created tubes only (keep caps alive)
  let s := disposeExistingTubes s
  if d.lineSegmentLength ≤ 0 then s
  else buildAndPublish s p d

/-- The success callback of `objLoader.load` (main.js 313-316): it stores the
template and resolves the promise, whose reactions then run in order. -/
def onLoadSuccess (s : State) : State :=
  match s.capLoadPromise with
  | some p =>
    if p.status = .pending then
      p.reactions.foldl ensureCaps
        { s with
          capTemplate := true,
          capLoadPromise := some { p with status := .fulfilled, reactions := [] } }
    else s
  | none => s

/-- The error callback of `objLoader.load` (main.js 318-321): it rejects the
promise; the `then` reactions do not run and every `catch` ignores the error. -/
def onLoadError (s : State) : State :=
  match s.capLoadPromise with
  | some p =>
    if p.status = .pending then
      { s with capLoadPromise := some { p with status := .rejected, reactions := [] } }
    else s
  | none => s

/-- What can happen to the lifecycle state: a rebuild with raw parameters, or
the completion of the cap asset load, which has an effect only on a pending
load. -/
inductive Event where
  | rebuild (hzlength faceSize holeSize : JSNum)
  | loadSuccess
  | loadError
deriving DecidableEq

/-- The effect of one event. -/
def step (s : State) : Event → State
  | .rebuild hzlength faceSize holeSize => addSerpentineCopies s hzlength faceSize holeSize
  | .loadSuccess => onLoadSuccess s
  | .loadError => onLoadError s

/-- The state after a sequence of events, from the initial state. -/
def run (events : List Event) : State := events.foldl step State.init

/-- The tube meshes that are children of `group`. -/
def State.attachedTubes (s : State) : List TubeMesh :=
  s.group.filterMap fun c =>
    match c with
    | .tube m => some m
    | _ => none

/-- A child of `group` refers to a released resource: a tube mesh whose
geometry or material has been disposed, or a cap whose material has been
disposed. -/
def State.AttachedUsesReleased (s : State) : Prop :=
  (∃ m, Child.tube m ∈ s.group ∧
      (m.geometry ∈ s.disposedGeometries ∨ m.material ∈ s.disposedMaterials)) ∨
  (Child.cap1 ∈ s.group ∧ ∃ c mat, s.cap1 = some c ∧ c.material = some mat ∧
      mat ∈ s.disposedMaterials) ∨
  (Child.cap2 ∈ s.group ∧ ∃ c mat, s.cap2 = some c ∧ c.material = some mat ∧
      mat ∈ s.disposedMaterials)

/-- The invariant of the lifecycle state: `group` has no child twice, every
tube mesh in `group` is tracked in `tubes`, every tracked mesh was made from
identities already handed out, a cap in `group` exists, `objLoader.load` has
been called exactly when a promise is stored, and the template is absent while
the promise is pending. -/
structure State.Inv (s : State) : Prop where
  nodup : s.group.Nodup
  tracked : ∀ m, Child.tube m ∈ s.group → m ∈ s.tubes
  fresh : ∀ m ∈ s.tubes, m.id < s.nextId ∧ m.geometry < s.nextId ∧ m.material < s.nextId
  cap1_some : Child.cap1 ∈ s.group → s.cap1.isSome = true
  cap2_some : Child.cap2 ∈ s.group → s.cap2.isSome = true
  load_once : s.loadCalls = if s.capLoadPromise.isSome = true then 1 else 0
  pending_no_template : ∀ p, s.capLoadPromise = some p → p.status = .pending →
    s.capTemplate = false

/-! ## Measures of the layout -/

/-- The width of the swept profile: the two halves together span from `-s` to
`s`, `s` being the clamped exterior half-width of the generators. -/
def profileWidth (faceSize : ℚ) : ℚ := 2 * cShapeS faceSize

/-- The clearance between the surfaces of two adjacent runs of the tube: the
spacing `2 * bendRadius` of their centerlines minus the width of the profile. -/
def surfaceClearance (d : DerivedLayout) (faceSize : ℚ) : ℚ :=
  2 * d.bendRadius - profileWidth faceSize

/-- A stand-in for `Math.sin` and `Math.cos` that is exact at the two ends of
the connector arc, `Math.PI / 2` and `3 * Math.PI / 2`. -/
def connectorEndsTrig : MathTrig :=
  { sin := fun t => if t = MathPI / 2 then 1 else if t = 3 * MathPI / 2 then -1 else 0,
    cos := fun _ => 0 }

/-! ## Theorems -/

/-- The guard returns a positive value whenever the replacement is positive. -/
theorem finitePositiveOr_pos (v : JSNum) (d : ℚ) (hd : 0 < d) : 0 < finitePositiveOr v d := by
  cases v with
  | fin q =>
    simp only [finitePositiveOr]
    split_ifs with h
    · exact hd
    · exact lt_of_not_le h
  | _ => exact hd

/-- The field `hz` of the result. -/
theorem sanitizeParameters_hz (a b c : JSNum) :
    (sanitizeParameters a b c).hz = finitePositiveOr a 85.75 := rfl

/-- The field `hole` of the result. -/
theorem sanitizeParameters_hole (a b c : JSNum) :
    (sanitizeParameters a b c).hole = finitePositiveOr c 0.5 := rfl

/-- The field `face` of the result, in terms of the sanitised hole. -/
theorem sanitizeParameters_face (a b c : JSNum) :
    (sanitizeParameters a b c).face =
      if finitePositiveOr b ((sanitizeParameters a b c).hole * 1.4) ≤
          (sanitizeParameters a b c).hole * 1.1
      then (sanitizeParameters a b c).hole * 1.4
      else finitePositiveOr b ((sanitizeParameters a b c).hole * 1.4) := rfl

/-- The sanitised hole diameter is positive. -/
theorem sanitizeParameters_hole_pos (a b c : JSNum) : 0 < (sanitizeParameters a b c).hole := by
  rw [sanitizeParameters_hole]
  exact finitePositiveOr_pos _ _ (by norm_num)

/-- The sanitised face exceeds `1.1` times the sanitised hole. -/
theorem sanitizeParameters_face_gt (a b c : JSNum) :
    1.1 * (sanitizeParameters a b c).hole < (sanitizeParameters a b c).face := by
  have hpos := sanitizeParameters_hole_pos a b c
  rw [sanitizeParameters_face]
  split_ifs with h
  · linarith
  · linarith [lt_of_not_le h]

/-- On a finite positive value the guard keeps the value. -/
theorem finitePositiveOr_of_pos (q d : ℚ) (hq : 0 < q) : finitePositiveOr (.fin q) d = q := by
  simp only [finitePositiveOr]
  rw [if_neg (not_le.mpr hq)]

/-- On finite positive inputs with `face > 1.1 * hole` the sanitiser returns
its input unchanged. -/
theorem sanitizeParameters_of_valid (l f h : ℚ) (hl : 0 < l) (hf : 0 < f) (hh : 0 < h)
    (hfh : 1.1 * h < f) :
    sanitizeParameters (.fin l) (.fin f) (.fin h) = { hz := l, face := f, hole := h } := by
  have e1 := sanitizeParameters_hz (.fin l) (.fin f) (.fin h)
  have e2 := sanitizeParameters_hole (.fin l) (.fin f) (.fin h)
  have e3 := sanitizeParameters_face (.fin l) (.fin f) (.fin h)
  rw [finitePositiveOr_of_pos l _ hl] at e1
  rw [finitePositiveOr_of_pos h _ hh] at e2
  rw [e2, finitePositiveOr_of_pos f _ hf, if_neg (by linarith)] at e3
  cases hp : sanitizeParameters (.fin l) (.fin f) (.fin h) with
  | mk a b c =>
    rw [hp] at e1 e2 e3
    simp only at e1 e2 e3
    rw [e1, e2, e3]

/-- C10: on finite positive `(length, face, hole)` with `face > 1.1 * hole`,
applying `sanitizeParameters` to the fields of its own result returns the same
result. -/
theorem sanitizeParameters_idempotent (l f h : ℚ) (hl : 0 < l) (hf : 0 < f) (hh : 0 < h)
    (hfh : 1.1 * h < f) :
    sanitizeParameters
        (.fin (sanitizeParameters (.fin l) (.fin f) (.fin h)).hz)
        (.fin (sanitizeParameters (.fin l) (.fin f) (.fin h)).face)
        (.fin (sanitizeParameters (.fin l) (.fin f) (.fin h)).hole) =
      sanitizeParameters (.fin l) (.fin f) (.fin h) := by
  rw [sanitizeParameters_of_valid l f h hl hf hh hfh]
  exact sanitizeParameters_of_valid l f h hl hf hh hfh

/-- C10 at the default parameters `(85.75, 0.7, 0.5)`. -/
theorem sanitizeParameters_idempotent_witness :
    ((0 : ℚ) < 85.75 ∧ (0 : ℚ) < 0.7 ∧ (0 : ℚ) < 0.5 ∧ (1.1 : ℚ) * 0.5 < 0.7) ∧
    sanitizeParameters
        (.fin (sanitizeParameters (.fin 85.75) (.fin 0.7) (.fin 0.5)).hz)
        (.fin (sanitizeParameters (.fin 85.75) (.fin 0.7) (.fin 0.5)).face)
        (.fin (sanitizeParameters (.fin 85.75) (.fin 0.7) (.fin 0.5)).hole) =
      sanitizeParameters (.fin 85.75) (.fin 0.7) (.fin 0.5) :=
  ⟨by norm_num, sanitizeParameters_idempotent 85.75 0.7 0.5 (by norm_num) (by norm_num)
    (by norm_num) (by norm_num)⟩

/-- The last element of a list that ends with `a`. -/
theorem getLast_append_last {α : Type} (xs ys : List α) (a : α) :
    (xs ++ (ys ++ [a])).getLast? = some a := by
  rw [← List.append_assoc, List.getLast?_concat]

/-- The last control point of a serpentine curve is the left end of its bottom
line. -/
theorem createSerpentineCurve_last (m : MathTrig) (l yo o b : ℚ) :
    (createSerpentineCurve m l yo o b).points.getLast? =
      some { x := -l / 2, y := o + yo - 2 * b, z := 0 } := by
  simp only [createSerpentineCurve]
  exact getLast_append_last _ [_] _

/-- The first control point of a serpentine curve is the left end of its top
line. -/
theorem createSerpentineCurve_first (m : MathTrig) (l yo o b : ℚ) :
    (createSerpentineCurve m l yo o b).points.head? =
      some { x := -l / 2, y := o + yo, z := 0 } := by
  simp [createSerpentineCurve]

/-- The connecting curve starts at its `start` point. -/
theorem createMiddleConnectingCurve_first (m : MathTrig) (l yt yb o b : ℚ) :
    (createMiddleConnectingCurve m l yt yb o b).firstPoint =
      some { x := o - l / 2, y := o + yt - 2 * b, z := 0 } := by
  simp [createMiddleConnectingCurve, CurvePath.firstPoint]

/-- The connecting curve ends at its `end` point. -/
theorem createMiddleConnectingCurve_last (m : MathTrig) (l yt yb o b : ℚ) :
    (createMiddleConnectingCurve m l yt yb o b).lastPoint =
      some { x := o - l / 2, y := o + yb, z := 0 } := by
  simp only [createMiddleConnectingCurve, CurvePath.lastPoint]
  rw [List.getLast?_concat]
  rfl

/-- One turn of the arc loop strictly inside the half turn adds one point. -/
theorem serpentineArcLoop_step (m : MathTrig) (l yo o b : ℚ) (fuel : Nat) (t : ℚ)
    (h0 : 0 < t) (h1 : t < MathPI) :
    serpentineArcLoop m l yo o b (fuel + 1) t =
      { x := l / 2 + b * m.sin t, y := o + yo - b * (1 - m.cos t), z := 0 } ::
        serpentineArcLoop m l yo o b fuel (t + MathPI / 32) := by
  rw [serpentineArcLoop, if_pos h1.le, if_neg]
  · rfl
  · rintro (h | h)
    · exact absurd h (ne_of_gt h0)
    · exact absurd h (ne_of_lt h1)

/-- The arc loop of `createSerpentineCurve` ends by its own test, after 34
tests of `t <= Math.PI`, well within the bound of 64, and adds 31 points. -/
theorem serpentineArcLoop_length (m : MathTrig) (l yo o b : ℚ) :
    (serpentineArcLoop m l yo o b 64 0).length = 31 := by
  have hpi : (0 : ℚ) < MathPI := by norm_num [MathPI]
  rw [serpentineArcLoop, if_pos hpi.le, if_pos (Or.inl rfl), List.nil_append]
  iterate 31 rw [serpentineArcLoop_step _ _ _ _ _ _ _ (by norm_num [MathPI]) (by norm_num [MathPI])]
  rw [serpentineArcLoop, if_pos (by norm_num [MathPI]), if_pos (Or.inr (by norm_num [MathPI])),
    List.nil_append, serpentineArcLoop, if_neg (by norm_num [MathPI])]
  rfl

/-- A serpentine curve has 35 control points. -/
theorem createSerpentineCurve_length (m : MathTrig) (l yo o b : ℚ) :
    (createSerpentineCurve m l yo o b).points.length = 35 := by
  simp only [createSerpentineCurve, List.length_append, serpentineArcLoop_length]
  rfl

/-- The method `getPoints(32)` returns 33 points. -/
theorem arcCurveGetPoints_length (m : MathTrig) (aX aY r a0 a1 : ℚ) (cw : Bool) (n : Nat) :
    (arcCurveGetPoints m aX aY r a0 a1 cw n).length = n + 1 := by
  simp [arcCurveGetPoints]

/-- At the default parameters `(85.75, 0.7, 0.5)` the layout is not degenerate. -/
theorem default_lineSegmentLength_pos :
    0 < (deriveLayout (sanitizeParameters (.fin 85.75) (.fin 0.7) (.fin 0.5))).lineSegmentLength := by
  rw [sanitizeParameters_of_valid _ _ _ (by norm_num) (by norm_num) (by norm_num) (by norm_num)]
  norm_num [deriveLayout, getLineSegmentLength, desiredSurfaceGap, MathPI]

/-- C4: for sanitised parameters with `lineSegmentLength > 0` the connecting
curve starts exactly at the last control point of the top serpentine curve and
ends exactly at the first control point of the bottom serpentine curve. -/
theorem centerline_continuous (m : MathTrig) (rawLength rawFace rawHole : JSNum)
    (_hpos : 0 < (deriveLayout (sanitizeParameters rawLength rawFace rawHole)).lineSegmentLength) :
    (buildCurves m (deriveLayout (sanitizeParameters rawLength rawFace rawHole))).middleCurve.firstPoint
      = (buildCurves m
          (deriveLayout (sanitizeParameters rawLength rawFace rawHole))).curve1.points.getLast? ∧
    (buildCurves m (deriveLayout (sanitizeParameters rawLength rawFace rawHole))).middleCurve.lastPoint
      = (buildCurves m
          (deriveLayout (sanitizeParameters rawLength rawFace rawHole))).curve2.points.head? ∧
    (∃ p : Vector3,
      (buildCurves m
          (deriveLayout (sanitizeParameters rawLength rawFace rawHole))).curve1.points.getLast?
        = some p) ∧
    (∃ p : Vector3,
      (buildCurves m
          (deriveLayout (sanitizeParameters rawLength rawFace rawHole))).curve2.points.head?
        = some p) := by
  simp only [buildCurves]
  rw [createMiddleConnectingCurve_first, createMiddleConnectingCurve_last,
    createSerpentineCurve_last, createSerpentineCurve_first]
  refine ⟨?_, ?_, ⟨_, rfl⟩, ⟨_, rfl⟩⟩
  · congr 2
    ring
  · congr 2
    ring

/-- C4 at the default parameters `(85.75, 0.7, 0.5)`, with constant stand-ins
for the trigonometric functions. -/
theorem centerline_continuous_witness :
    0 < (deriveLayout (sanitizeParameters (.fin 85.75) (.fin 0.7) (.fin 0.5))).lineSegmentLength ∧
    (buildCurves { sin := fun _ => 0, cos := fun _ => 1 }
        (deriveLayout (sanitizeParameters (.fin 85.75) (.fin 0.7) (.fin 0.5)))).middleCurve.firstPoint
      = (buildCurves { sin := fun _ => 0, cos := fun _ => 1 }
          (deriveLayout
            (sanitizeParameters (.fin 85.75) (.fin 0.7) (.fin 0.5)))).curve1.points.getLast? ∧
    (buildCurves { sin := fun _ => 0, cos := fun _ => 1 }
        (deriveLayout (sanitizeParameters (.fin 85.75) (.fin 0.7) (.fin 0.5)))).middleCurve.lastPoint
      = (buildCurves { sin := fun _ => 0, cos := fun _ => 1 }
          (deriveLayout
            (sanitizeParameters (.fin 85.75) (.fin 0.7) (.fin 0.5)))).curve2.points.head? :=
  ⟨default_lineSegmentLength_pos,
    (centerline_continuous { sin := fun _ => 0, cos := fun _ => 1 } (.fin 85.75) (.fin 0.7)
      (.fin 0.5) default_lineSegmentLength_pos).1,
    (centerline_continuous { sin := fun _ => 0, cos := fun _ => 1 } (.fin 85.75) (.fin 0.7)
      (.fin 0.5) default_lineSegmentLength_pos).2.1⟩

/-- The bore arc of the left half sweeps two quarter turns clockwise. -/
theorem quarterDeltaAngle_left_bore : quarterDeltaAngle (-1) 1 true = -2 := by decide
/-- The top-left corner arc sweeps one quarter turn. -/
theorem quarterDeltaAngle_top_left : quarterDeltaAngle 1 2 false = 1 := by decide
/-- The bottom-left corner arc sweeps one quarter turn. -/
theorem quarterDeltaAngle_bottom_left : quarterDeltaAngle 2 3 false = 1 := by decide
/-- The bottom-right corner arc sweeps one quarter turn. -/
theorem quarterDeltaAngle_bottom_right : quarterDeltaAngle (-1) 0 false = 1 := by decide
/-- The top-right corner arc sweeps one quarter turn. -/
theorem quarterDeltaAngle_top_right : quarterDeltaAngle 0 1 false = 1 := by decide
/-- The bore arc of the right half sweeps two quarter turns clockwise. -/
theorem quarterDeltaAngle_right_bore : quarterDeltaAngle 1 3 true = -2 := by decide

/-- The members of the left outline, in the order the generator adds them: no
joining line is inserted before any arc. -/
theorem createLeftHalfCShape_curves (o i : ℚ) :
    (createLeftHalfCShape o i).curves =
      [ .line ⟨-cShapeS o + cShapeR o, -cShapeS o⟩ ⟨0, -cShapeS o⟩,
        .line ⟨0, -cShapeS o⟩ ⟨0, -cShapeInnerRadius i⟩,
        .ellipse 0 0 (cShapeInnerRadius i) (-1) 1 true,
        .line ⟨0, cShapeInnerRadius i⟩ ⟨0, cShapeS o⟩,
        .line ⟨0, cShapeS o⟩ ⟨-cShapeS o + cShapeR o, cShapeS o⟩,
        .ellipse (-cShapeS o + cShapeR o) (cShapeS o - cShapeR o) (cShapeR o) 1 2 false,
        .line ⟨-cShapeS o, cShapeS o - cShapeR o⟩ ⟨-cShapeS o, -cShapeS o + cShapeR o⟩,
        .ellipse (-cShapeS o + cShapeR o) (-cShapeS o + cShapeR o) (cShapeR o) 2 3 false,
        .line ⟨-cShapeS o + cShapeR o, -cShapeS o⟩ ⟨-cShapeS o + cShapeR o, -cShapeS o⟩ ] := by
  simp only [createLeftHalfCShape]
  rw [show max (max o 0.05 / 4) (0.05 * 0.25) = cShapeR o from rfl,
    show max (max i (0.05 * 0.5) / 2) (0.05 * 0.25) = cShapeInnerRadius i from rfl,
    show max o 0.05 / 2 = cShapeS o from rfl]
  generalize cShapeS o = s
  generalize cShapeR o = r
  generalize cShapeInnerRadius i = ir
  simp [Shape.new, Shape.moveTo, Shape.lineTo, Shape.absarc, quarterDeltaAngle_left_bore,
    quarterDeltaAngle_top_left, quarterDeltaAngle_bottom_left, cosQuarter, sinQuarter]

/-- The members of the right outline, in the order the generator adds them: no
joining line is inserted before any arc. -/
theorem createRightHalfCShape_curves (o i : ℚ) :
    (createRightHalfCShape o i).curves =
      [ .line ⟨0, -cShapeS o⟩ ⟨cShapeS o - cShapeR o, -cShapeS o⟩,
        .ellipse (cShapeS o - cShapeR o) (-cShapeS o + cShapeR o) (cShapeR o) (-1) 0 false,
        .line ⟨cShapeS o, -cShapeS o + cShapeR o⟩ ⟨cShapeS o, cShapeS o - cShapeR o⟩,
        .ellipse (cShapeS o - cShapeR o) (cShapeS o - cShapeR o) (cShapeR o) 0 1 false,
        .line ⟨cShapeS o - cShapeR o, cShapeS o⟩ ⟨0, cShapeS o⟩,
        .line ⟨0, cShapeS o⟩ ⟨0, cShapeInnerRadius i⟩,
        .ellipse 0 0 (cShapeInnerRadius i) 1 3 true,
        .line ⟨0, -cShapeInnerRadius i⟩ ⟨0, -cShapeS o⟩ ] := by
  simp only [createRightHalfCShape]
  rw [show max (max o 0.05 / 4) (0.05 * 0.25) = cShapeR o from rfl,
    show max (max i (0.05 * 0.5) / 2) (0.05 * 0.25) = cShapeInnerRadius i from rfl,
    show max o 0.05 / 2 = cShapeS o from rfl]
  generalize cShapeS o = s
  generalize cShapeR o = r
  generalize cShapeInnerRadius i = ir
  simp [Shape.new, Shape.moveTo, Shape.lineTo, Shape.absarc, quarterDeltaAngle_bottom_right,
    quarterDeltaAngle_top_right, quarterDeltaAngle_right_bore, cosQuarter, sinQuarter]

/-- The table `cosQuarter` is the cosine at whole numbers of quarter turns. -/
theorem cosQuarter_eq (k : ℤ) : ((cosQuarter k : ℚ) : ℝ) = Real.cos ((k : ℝ) * (Real.pi / 2)) := by
  have hk : ((k : ℝ)) = ((k % 4 : ℤ) : ℝ) + 4 * ((k / 4 : ℤ) : ℝ) := by
    have := Int.emod_add_ediv k 4
    exact_mod_cast this.symm
  have e : (k : ℝ) * (Real.pi / 2) =
      ((k % 4 : ℤ) : ℝ) * (Real.pi / 2) + ((k / 4 : ℤ) : ℝ) * (2 * Real.pi) := by
    rw [hk]
    ring
  rw [e, Real.cos_add_int_mul_two_pi]
  have h4 : k % 4 = 0 ∨ k % 4 = 1 ∨ k % 4 = 2 ∨ k % 4 = 3 := by omega
  rcases h4 with h | h | h | h <;> simp only [cosQuarter, h] <;> norm_num
  · rw [show (2 : ℝ) * (Real.pi / 2) = Real.pi by ring, Real.cos_pi]
  · rw [show (3 : ℝ) * (Real.pi / 2) = Real.pi / 2 + Real.pi by ring, Real.cos_add_pi]
    simp

/-- The table `sinQuarter` is the sine at whole numbers of quarter turns. -/
theorem sinQuarter_eq (k : ℤ) : ((sinQuarter k : ℚ) : ℝ) = Real.sin ((k : ℝ) * (Real.pi / 2)) := by
  have hk : ((k : ℝ)) = ((k % 4 : ℤ) : ℝ) + 4 * ((k / 4 : ℤ) : ℝ) := by
    have := Int.emod_add_ediv k 4
    exact_mod_cast this.symm
  have e : (k : ℝ) * (Real.pi / 2) =
      ((k % 4 : ℤ) : ℝ) * (Real.pi / 2) + ((k / 4 : ℤ) : ℝ) * (2 * Real.pi) := by
    rw [hk]
    ring
  rw [e, Real.sin_add_int_mul_two_pi]
  have h4 : k % 4 = 0 ∨ k % 4 = 1 ∨ k % 4 = 2 ∨ k % 4 = 3 := by omega
  rcases h4 with h | h | h | h <;> simp only [sinQuarter, h] <;> norm_num
  · rw [show (2 : ℝ) * (Real.pi / 2) = Real.pi by ring, Real.sin_pi]
  · rw [show (3 : ℝ) * (Real.pi / 2) = Real.pi / 2 + Real.pi by ring, Real.sin_add_pi]
    simp

/-- One turn of the disposal loop, written out. -/
theorem disposeTube_eq (s : State) (m : TubeMesh) :
    disposeTube s m =
      { s with
        group := s.group.erase (Child.tube m),
        disposedGeometries := s.disposedGeometries ++ [m.geometry],
        disposedMaterials := s.disposedMaterials ++ [m.material] } := by
  unfold disposeTube disposeMesh
  by_cases h : Child.tube m ∈ s.group
  · simp [h]
  · simp [h, List.erase_of_not_mem h]

/-- What the disposal loop over the meshes `l` leaves unchanged, removes from
`group` and releases. -/
theorem foldl_disposeTube (l : List TubeMesh) (s : State) :
    (l.foldl disposeTube s).tubes = s.tubes ∧
    (l.foldl disposeTube s).cap1 = s.cap1 ∧
    (l.foldl disposeTube s).cap2 = s.cap2 ∧
    (l.foldl disposeTube s).capTemplate = s.capTemplate ∧
    (l.foldl disposeTube s).capLoadPromise = s.capLoadPromise ∧
    (l.foldl disposeTube s).loadCalls = s.loadCalls ∧
    (l.foldl disposeTube s).nextId = s.nextId ∧
    (∀ g, g ∈ (l.foldl disposeTube s).disposedGeometries ↔
      g ∈ s.disposedGeometries ∨ ∃ m ∈ l, m.geometry = g) ∧
    (∀ g, g ∈ (l.foldl disposeTube s).disposedMaterials ↔
      g ∈ s.disposedMaterials ∨ ∃ m ∈ l, m.material = g) ∧
    (s.group.Nodup → (l.foldl disposeTube s).group.Nodup ∧
      ∀ x, x ∈ (l.foldl disposeTube s).group ↔ x ∈ s.group ∧ ∀ m ∈ l, x ≠ Child.tube m) := by
  induction l generalizing s with
  | nil => simp
  | cons a l ih =>
    simp only [List.foldl_cons]
    obtain ⟨h1, h2, h3, h4, h5, h6, h7, h8, h9, h10⟩ := ih (disposeTube s a)
    rw [h1, h2, h3, h4, h5, h6, h7]
    rw [disposeTube_eq] at h8 h9 h10 ⊢
    refine ⟨rfl, rfl, rfl, rfl, rfl, rfl, rfl, ?_, ?_, ?_⟩
    · intro g
      rw [h8 g]
      simp only [List.mem_append, List.mem_cons, List.not_mem_nil, or_false, exists_eq_or_imp]
      constructor
      · rintro ((h | h) | h)
        · exact Or.inl h
        · exact Or.inr (Or.inl h.symm)
        · exact Or.inr (Or.inr h)
      · rintro (h | h | h)
        · exact Or.inl (Or.inl h)
        · exact Or.inl (Or.inr h.symm)
        · exact Or.inr h
    · intro g
      rw [h9 g]
      simp only [List.mem_append, List.mem_cons, List.not_mem_nil, or_false, exists_eq_or_imp]
      constructor
      · rintro ((h | h) | h)
        · exact Or.inl h
        · exact Or.inr (Or.inl h.symm)
        · exact Or.inr (Or.inr h)
      · rintro (h | h | h)
        · exact Or.inl (Or.inl h)
        · exact Or.inl (Or.inr h.symm)
        · exact Or.inr h
    · intro hnd
      obtain ⟨hn, hm⟩ := h10 (hnd.erase _)
      refine ⟨hn, fun x => ?_⟩
      rw [hm x]
      simp only [hnd.mem_erase_iff, List.mem_cons, forall_eq_or_imp]
      tauto

/-- Detaching the caps changes only `group`, from which it takes both caps. -/
theorem detachCapsFromGroup_spec (s : State) (h : s.Inv) :
    (detachCapsFromGroup s).tubes = s.tubes ∧
    (detachCapsFromGroup s).cap1 = s.cap1 ∧
    (detachCapsFromGroup s).cap2 = s.cap2 ∧
    (detachCapsFromGroup s).capTemplate = s.capTemplate ∧
    (detachCapsFromGroup s).capLoadPromise = s.capLoadPromise ∧
    (detachCapsFromGroup s).loadCalls = s.loadCalls ∧
    (detachCapsFromGroup s).nextId = s.nextId ∧
    (detachCapsFromGroup s).disposedGeometries = s.disposedGeometries ∧
    (detachCapsFromGroup s).disposedMaterials = s.disposedMaterials ∧
    (detachCapsFromGroup s).group.Nodup ∧
    (∀ x, x ∈ (detachCapsFromGroup s).group ↔
      x ∈ s.group ∧ x ≠ Child.cap1 ∧ x ≠ Child.cap2) := by
  have e : detachCapsFromGroup s =
      { s with group := (s.group.erase Child.cap1).erase Child.cap2 } := by
    unfold detachCapsFromGroup
    by_cases h1 : Child.cap1 ∈ s.group
    · have c1 := h.cap1_some h1
      by_cases h2 : Child.cap2 ∈ s.group
      · have c2 := h.cap2_some h2
        have h2' : Child.cap2 ∈ s.group.erase Child.cap1 :=
          (List.mem_erase_of_ne (by simp)).2 h2
        simp [h1, h2', c1, c2]
      · have h2' : Child.cap2 ∉ s.group.erase Child.cap1 :=
          fun hc => h2 (List.mem_of_mem_erase hc)
        simp [h1, h2', c1, List.erase_of_not_mem h2']
    · rw [List.erase_of_not_mem h1]
      by_cases h2 : Child.cap2 ∈ s.group
      · have c2 := h.cap2_some h2
        simp [h1, h2, c2]
      · simp [h1, h2, List.erase_of_not_mem h2]
  rw [e]
  refine ⟨rfl, rfl, rfl, rfl, rfl, rfl, rfl, rfl, rfl, (h.nodup.erase _).erase _, fun x => ?_⟩
  simp only [(h.nodup.erase _).mem_erase_iff, h.nodup.mem_erase_iff]
  tauto

/-- After the caps are detached and the tracked tubes disposed, `group` and
`tubes` are empty, the resources of every tube tracked before are released, and
nothing else has changed. -/
theorem cleared_spec (s : State) (h : s.Inv) :
    (disposeExistingTubes (detachCapsFromGroup s)).group = [] ∧
    (disposeExistingTubes (detachCapsFromGroup s)).tubes = [] ∧
    (disposeExistingTubes (detachCapsFromGroup s)).cap1 = s.cap1 ∧
    (disposeExistingTubes (detachCapsFromGroup s)).cap2 = s.cap2 ∧
    (disposeExistingTubes (detachCapsFromGroup s)).capTemplate = s.capTemplate ∧
    (disposeExistingTubes (detachCapsFromGroup s)).capLoadPromise = s.capLoadPromise ∧
    (disposeExistingTubes (detachCapsFromGroup s)).loadCalls = s.loadCalls ∧
    (disposeExistingTubes (detachCapsFromGroup s)).nextId = s.nextId ∧
    (∀ g, g ∈ (disposeExistingTubes (detachCapsFromGroup s)).disposedGeometries ↔
      g ∈ s.disposedGeometries ∨ ∃ m ∈ s.tubes, m.geometry = g) ∧
    (∀ g, g ∈ (disposeExistingTubes (detachCapsFromGroup s)).disposedMaterials ↔
      g ∈ s.disposedMaterials ∨ ∃ m ∈ s.tubes, m.material = g) := by
  obtain ⟨d1, d2, d3, d4, d5, d6, d7, d8, d9, d10, d11⟩ := detachCapsFromGroup_spec s h
  unfold disposeExistingTubes
  obtain ⟨f1, f2, f3, f4, f5, f6, f7, f8, f9, f10⟩ :=
    foldl_disposeTube (detachCapsFromGroup s).tubes.reverse
      { detachCapsFromGroup s with tubes := [] }
  rw [f1, f2, f3, f4, f5, f6, f7]
  refine ⟨?_, rfl, d2, d3, d4, d5, d6, d7, ?_, ?_⟩
  · obtain ⟨_, hm⟩ := f10 d10
    rw [List.eq_nil_iff_forall_not_mem]
    intro x hx
    rw [hm x] at hx
    obtain ⟨hx1, hx2⟩ := hx
    have hx3 := (d11 x).1 hx1
    cases x with
    | tube m =>
      refine hx2 m ?_ rfl
      rw [List.mem_reverse, d1]
      exact h.tracked m hx3.1
    | cap1 => exact hx3.2.1 rfl
    | cap2 => exact hx3.2.2 rfl
  · intro g
    rw [f8 g]
    simp only [List.mem_reverse, d1, d8]
  · intro g
    rw [f9 g]
    simp only [List.mem_reverse, d1, d9]

/-- The state after detaching and disposing satisfies the invariant. -/
theorem cleared_inv (s : State) (h : s.Inv) :
    (disposeExistingTubes (detachCapsFromGroup s)).Inv := by
  obtain ⟨c1, c2, c3, c4, c5, c6, c7, c8, c9, c10⟩ := cleared_spec s h
  refine ⟨?_, ?_, ?_, ?_, ?_, ?_, ?_⟩
  · rw [c1]
    exact List.nodup_nil
  · intro m hm
    rw [c1] at hm
    exact absurd hm (List.not_mem_nil _)
  · intro m hm
    rw [c2] at hm
    exact absurd hm (List.not_mem_nil _)
  · intro hm
    rw [c1] at hm
    exact absurd hm (List.not_mem_nil _)
  · intro hm
    rw [c1] at hm
    exact absurd hm (List.not_mem_nil _)
  · rw [c7, c6]
    exact h.load_once
  · intro p hp hs
    rw [c6] at hp
    rw [c5]
    exact h.pending_no_template p hp hs

/-- The six created meshes are distinct. -/
theorem createTubes_nodup (base mat : Nat) : (createTubes base mat).Nodup := by
  simp [createTubes]

/-- The six created meshes take their identities from `base` to `base + 11`. -/
theorem createTubes_ids (base mat : Nat) (m : TubeMesh) (hm : m ∈ createTubes base mat) :
    base ≤ m.geometry ∧ m.geometry < base + 12 ∧ base ≤ m.id ∧ m.id < base + 12 ∧
    m.material = mat := by
  simp only [createTubes, List.mem_cons, List.mem_singleton, List.not_mem_nil, or_false] at hm
  rcases hm with rfl | rfl | rfl | rfl | rfl | rfl <;> simp

/-- There are six created meshes. -/
theorem createTubes_length (base mat : Nat) : (createTubes base mat).length = 6 := rfl

/-- What `buildAndPublish` does to a state with no child in `group` and no
tracked tube: six fresh meshes with the new material `c.nextId` are tracked and
attached after the caps, nothing is released, and the invariant holds. -/
theorem buildAndPublish_spec (c : State) (h : c.Inv) (hg : c.group = []) (ht : c.tubes = [])
    (p : GeometryParameters) (d : DerivedLayout) :
    ∃ base, c.nextId < base ∧
      (buildAndPublish c p d).nextId = base + 12 ∧
      (buildAndPublish c p d).tubes = createTubes base c.nextId ∧
      (buildAndPublish c p d).group =
        (if c.capTemplate = true then [Child.cap1, Child.cap2] else []) ++
          (createTubes base c.nextId).map Child.tube ∧
      (buildAndPublish c p d).disposedGeometries = c.disposedGeometries ∧
      (buildAndPublish c p d).disposedMaterials = c.disposedMaterials ∧
      (buildAndPublish c p d).capTemplate = c.capTemplate ∧
      (buildAndPublish c p d).loadCalls = (if c.capTemplate = true then c.loadCalls else 1) ∧
      ((buildAndPublish c p d).capLoadPromise.isSome = true ∨ c.capTemplate = true) ∧
      (∀ q, c.capLoadPromise = some q →
        ∃ q2, (buildAndPublish c p d).capLoadPromise = some q2 ∧ q2.id = q.id ∧
          q2.status = q.status) ∧
      (c.capTemplate = true →
        (buildAndPublish c p d).capLoadPromise = c.capLoadPromise ∧
        ∃ k1 k2, (buildAndPublish c p d).cap1 = some k1 ∧ k1.material = some c.nextId ∧
          (buildAndPublish c p d).cap2 = some k2 ∧ k2.material = some c.nextId) := by
  by_cases hT : c.capTemplate = true
  · refine ⟨c.nextId + 1, Nat.lt_succ_self _, ?_⟩
    simp only [buildAndPublish, ensureCaps, hT, hg, ht]
    simp
    intro q hq
    exact ⟨q, hq, rfl, rfl⟩
  · have hF : c.capTemplate = false := by simpa using hT
    have hl := h.load_once
    cases hp : c.capLoadPromise with
    | none =>
      rw [hp] at hl
      simp only [Option.isSome_none, Bool.false_eq_true, if_false] at hl
      refine ⟨c.nextId + 2, by omega, ?_⟩
      simp [buildAndPublish, loadCapTemplateThenEnsureCaps, loadCapTemplate, hF, hg, ht, hp, hl]
    | some q =>
      rw [hp] at hl
      refine ⟨c.nextId + 1, Nat.lt_succ_self _, ?_⟩
      cases hs : q.status <;>
        simp [buildAndPublish, loadCapTemplateThenEnsureCaps, loadCapTemplate, hF, hg, ht, hp,
          hs, hl]

/-- The state `buildAndPublish` leaves satisfies the invariant. -/
theorem buildAndPublish_inv (c : State) (h : c.Inv) (hg : c.group = []) (ht : c.tubes = [])
    (p : GeometryParameters) (d : DerivedLayout) : (buildAndPublish c p d).Inv := by
  obtain ⟨base, hb, e1, e2, e3, _, _, e6, e7, e8, e9, e10⟩ := buildAndPublish_spec c h hg ht p d
  refine ⟨?_, ?_, ?_, ?_, ?_, ?_, ?_⟩
  · rw [e3]
    have hn : ((createTubes base c.nextId).map Child.tube).Nodup :=
      (createTubes_nodup base c.nextId).map (fun a b hab => by injection hab)
    split_ifs
    · rw [List.nodup_append]
      refine ⟨by simp, hn, ?_⟩
      intro x hx hx2
      rw [List.mem_map] at hx2
      obtain ⟨m, _, rfl⟩ := hx2
      simp at hx
    · simpa using hn
  · intro m hm
    rw [e3] at hm
    rw [e2]
    rw [List.mem_append, List.mem_map] at hm
    rcases hm with hm | ⟨m2, hm2, hmm⟩
    · split_ifs at hm <;> simp at hm
    · injection hmm with hmm
      rw [← hmm]
      exact hm2
  · intro m hm
    rw [e2] at hm
    obtain ⟨i1, i2, i3, i4, i5⟩ := createTubes_ids base c.nextId m hm
    rw [e1, i5]
    omega
  · intro hm
    rw [e3] at hm
    by_cases hT : c.capTemplate = true
    · obtain ⟨_, k1, k2, hk1, _, _, _⟩ := e10 hT
      rw [hk1]
      rfl
    · rw [if_neg hT] at hm
      simp at hm
  · intro hm
    rw [e3] at hm
    by_cases hT : c.capTemplate = true
    · obtain ⟨_, k1, k2, _, _, hk2, _⟩ := e10 hT
      rw [hk2]
      rfl
    · rw [if_neg hT] at hm
      simp at hm
  · rw [e7]
    by_cases hT : c.capTemplate = true
    · rw [if_pos hT, (e10 hT).1]
      exact h.load_once
    · rw [if_neg hT]
      rcases e8 with e8 | e8
      · rw [if_pos e8]
      · exact absurd e8 hT
  · intro q hq hs
    rw [e6]
    by_cases hT : c.capTemplate = true
    · rw [(e10 hT).1] at hq
      exact h.pending_no_template q hq hs
    · simpa using hT

/-- What `ensureCaps` changes: with the template loaded both caps exist, carry
the material of the request and are children of `group`; nothing else moves. -/
theorem ensureCaps_spec (s : State) (req : CapRequest) :
    (ensureCaps s req).tubes = s.tubes ∧
    (ensureCaps s req).nextId = s.nextId ∧
    (ensureCaps s req).capTemplate = s.capTemplate ∧
    (ensureCaps s req).capLoadPromise = s.capLoadPromise ∧
    (ensureCaps s req).loadCalls = s.loadCalls ∧
    (ensureCaps s req).disposedGeometries = s.disposedGeometries ∧
    (ensureCaps s req).disposedMaterials = s.disposedMaterials ∧
    (s.group.Nodup → (ensureCaps s req).group.Nodup) ∧
    (∀ x, x ∈ (ensureCaps s req).group ↔
      x ∈ s.group ∨ (s.capTemplate = true ∧ (x = Child.cap1 ∨ x = Child.cap2))) ∧
    (s.capTemplate = false → ensureCaps s req = s) ∧
    (s.capTemplate = true →
      ∃ k1 k2, (ensureCaps s req).cap1 = some k1 ∧ k1.material = some req.tubeMaterial ∧
        (ensureCaps s req).cap2 = some k2 ∧ k2.material = some req.tubeMaterial) := by
  by_cases hT : s.capTemplate = true
  · have hF : ¬ s.capTemplate = false := by simp [hT]
    unfold ensureCaps
    rw [if_neg hF]
    refine ⟨rfl, rfl, rfl, rfl, rfl, rfl, rfl, ?_, ?_, ?_, ?_⟩ <;> dsimp only
    · intro hnd
      by_cases h1 : Child.cap1 ∈ s.group <;> by_cases h2 : Child.cap2 ∈ s.group
      · simpa only [h1, h2, if_true] using hnd
      · simp only [h1, h2, if_true, if_false]
        exact List.Nodup.append hnd (List.nodup_singleton _) (by simpa using h2)
      · have h2' : Child.cap2 ∈ s.group ++ [Child.cap1] := List.mem_append_left _ h2
        simp only [h1, h2', if_true, if_false]
        exact List.Nodup.append hnd (List.nodup_singleton _) (by simpa using h1)
      · have h2' : Child.cap2 ∉ s.group ++ [Child.cap1] := by simp [h2]
        simp only [h1, h2', if_false]
        refine List.Nodup.append ?_ (List.nodup_singleton _) (by simpa using h2')
        exact List.Nodup.append hnd (List.nodup_singleton _) (by simpa using h1)
    · intro x
      by_cases h1 : Child.cap1 ∈ s.group <;> by_cases h2 : Child.cap2 ∈ s.group
      · simp only [h1, h2, if_true, hT, true_and]
        constructor
        · exact Or.inl
        · rintro (h | rfl | rfl) <;> assumption
      · simp only [h1, h2, if_true, if_false, List.mem_append, List.mem_singleton, hT, true_and]
        constructor
        · rintro (h | h)
          · exact Or.inl h
          · exact Or.inr (Or.inr h)
        · rintro (h | rfl | rfl)
          · exact Or.inl h
          · exact Or.inl h1
          · exact Or.inr rfl
      · have h2' : Child.cap2 ∈ s.group ++ [Child.cap1] := List.mem_append_left _ h2
        simp only [h1, h2', if_true, if_false, List.mem_append, List.mem_singleton, hT, true_and]
        constructor
        · rintro (h | h)
          · exact Or.inl h
          · exact Or.inr (Or.inl h)
        · rintro (h | rfl | rfl)
          · exact Or.inl h
          · exact Or.inr rfl
          · exact Or.inl h2
      · have h2' : Child.cap2 ∉ s.group ++ [Child.cap1] := by simp [h2]
        simp only [h1, h2', if_false, List.mem_append, List.mem_singleton, hT, true_and]
        tauto
    · intro hc
      exact absurd hc hF
    · intro _
      exact ⟨_, _, rfl, rfl, rfl, rfl⟩
  · have hF : s.capTemplate = false := by simpa using hT
    simp [ensureCaps, hF]

/-- The function `ensureCaps` keeps the invariant. -/
theorem ensureCaps_inv (s : State) (h : s.Inv) (req : CapRequest) : (ensureCaps s req).Inv := by
  obtain ⟨e1, e2, e3, e4, e5, _, _, e8, e9, e10, e11⟩ := ensureCaps_spec s req
  by_cases hT : s.capTemplate = true
  · obtain ⟨k1, k2, hk1, _, hk2, _⟩ := e11 hT
    refine ⟨e8 h.nodup, ?_, ?_, ?_, ?_, ?_, ?_⟩
    · intro m hm
      rw [e1]
      rcases (e9 _).1 hm with hm | ⟨_, hm | hm⟩
      · exact h.tracked m hm
      · cases hm
      · cases hm
    · intro m hm
      rw [e1] at hm
      rw [e2]
      exact h.fresh m hm
    · intro _
      rw [hk1]
      rfl
    · intro _
      rw [hk2]
      rfl
    · rw [e5, e4]
      exact h.load_once
    · intro q hq hs
      rw [e4] at hq
      rw [e3]
      exact h.pending_no_template q hq hs
  · have hF : s.capTemplate = false := by simpa using hT
    rw [e10 hF]
    exact h

/-- Running the reactions of the promise keeps the invariant. -/
theorem foldl_ensureCaps_inv (l : List CapRequest) (s : State) (h : s.Inv) :
    (l.foldl ensureCaps s).Inv := by
  induction l generalizing s with
  | nil => exact h
  | cons a l ih => exact ih _ (ensureCaps_inv s h a)

/-- A rebuild keeps the invariant. -/
theorem addSerpentineCopies_inv (s : State) (h : s.Inv) (a b c : JSNum) :
    (addSerpentineCopies s a b c).Inv := by
  unfold addSerpentineCopies
  dsimp only
  split_ifs
  · exact cleared_inv s h
  · obtain ⟨c1, c2, _⟩ := cleared_spec s h
    exact buildAndPublish_inv _ (cleared_inv s h) c1 c2 _ _

/-- The success of the load keeps the invariant. -/
theorem onLoadSuccess_inv (s : State) (h : s.Inv) : (onLoadSuccess s).Inv := by
  unfold onLoadSuccess
  cases hp : s.capLoadPromise with
  | none => exact h
  | some q =>
    dsimp only
    split_ifs with hs
    · apply foldl_ensureCaps_inv
      refine ⟨h.nodup, h.tracked, h.fresh, h.cap1_some, h.cap2_some, ?_, ?_⟩
      · have := h.load_once
        rw [hp] at this
        exact this
      · intro q2 hq2 hs2
        simp only [Option.some.injEq] at hq2
        rw [← hq2] at hs2
        cases hs2
    · exact h

/-- The failure of the load keeps the invariant. -/
theorem onLoadError_inv (s : State) (h : s.Inv) : (onLoadError s).Inv := by
  unfold onLoadError
  cases hp : s.capLoadPromise with
  | none => exact h
  | some q =>
    dsimp only
    split_ifs with hs
    · refine ⟨h.nodup, h.tracked, h.fresh, h.cap1_some, h.cap2_some, ?_, ?_⟩
      · have := h.load_once
        rw [hp] at this
        exact this
      · intro q2 hq2 hs2
        simp only [Option.some.injEq] at hq2
        rw [← hq2] at hs2
        cases hs2
    · exact h

/-- Every event keeps the invariant. -/
theorem step_inv (s : State) (h : s.Inv) (e : Event) : (step s e).Inv := by
  cases e with
  | rebuild a b c => exact addSerpentineCopies_inv s h a b c
  | loadSuccess => exact onLoadSuccess_inv s h
  | loadError => exact onLoadError_inv s h

/-- The initial state satisfies the invariant. -/
theorem init_inv : State.init.Inv := by
  refine ⟨List.nodup_nil, ?_, ?_, ?_, ?_, rfl, ?_⟩ <;> simp [State.init]

/-- Every event sequence keeps the invariant from a state that satisfies it. -/
theorem foldl_step_inv (events : List Event) (s : State) (h : s.Inv) :
    (events.foldl step s).Inv := by
  induction events generalizing s with
  | nil => exact h
  | cons e es ih => exact ih _ (step_inv s h e)

/-- Every reachable state satisfies the invariant. -/
theorem run_inv (events : List Event) : (run events).Inv :=
  foldl_step_inv events State.init init_inv

/-- The tube meshes among caps followed by tube meshes. -/
theorem attachedTubes_caps_append (s : State) (caps : List Child) (l : List TubeMesh)
    (hc : ∀ x ∈ caps, x = Child.cap1 ∨ x = Child.cap2)
    (hg : s.group = caps ++ l.map Child.tube) : s.attachedTubes = l := by
  unfold State.attachedTubes
  rw [hg, List.filterMap_append]
  have h1 : caps.filterMap (fun c => match c with | .tube m => some m | _ => none) = [] := by
    rw [List.filterMap_eq_nil_iff]
    intro x hx
    rcases hc x hx with rfl | rfl <;> rfl
  rw [h1, List.nil_append, List.filterMap_map]
  have h2 : ((fun c => match c with | .tube m => some m | _ => none) ∘ Child.tube)
      = (some : TubeMesh → Option TubeMesh) := by
    funext m
    rfl
  rw [h2, List.filterMap_some]

/-- A rebuild with a layout that is not degenerate tracks and attaches six new
tube meshes and releases every tube mesh tracked before. -/
theorem addSerpentineCopies_publishes (s : State) (h : s.Inv) (a b c : JSNum)
    (hpos : 0 < (deriveLayout (sanitizeParameters a b c)).lineSegmentLength) :
    (addSerpentineCopies s a b c).tubes.length = 6 ∧
    (addSerpentineCopies s a b c).tubes.Nodup ∧
    (addSerpentineCopies s a b c).attachedTubes = (addSerpentineCopies s a b c).tubes ∧
    (∀ m ∈ (addSerpentineCopies s a b c).tubes,
      s.nextId ≤ m.id ∧ s.nextId ≤ m.geometry ∧ s.nextId ≤ m.material ∧ m ∉ s.tubes) ∧
    (∀ m ∈ s.tubes, Child.tube m ∉ (addSerpentineCopies s a b c).group ∧
      m.geometry ∈ (addSerpentineCopies s a b c).disposedGeometries ∧
      m.material ∈ (addSerpentineCopies s a b c).disposedMaterials) := by
  obtain ⟨c1, c2, _, _, _, _, _, c8, c9, c10⟩ := cleared_spec s h
  obtain ⟨base, hb, _, e2, e3, e4, e5, _⟩ :=
    buildAndPublish_spec _ (cleared_inv s h) c1 c2 (sanitizeParameters a b c)
      (deriveLayout (sanitizeParameters a b c))
  have hr : addSerpentineCopies s a b c =
      buildAndPublish (disposeExistingTubes (detachCapsFromGroup s)) (sanitizeParameters a b c)
        (deriveLayout (sanitizeParameters a b c)) := by
    unfold addSerpentineCopies
    dsimp only
    rw [if_neg (not_le.mpr hpos)]
  rw [hr, e2]
  rw [c8] at hb e2 e3
  have hnew : ∀ m ∈ createTubes base s.nextId,
      s.nextId ≤ m.id ∧ s.nextId ≤ m.geometry ∧ s.nextId ≤ m.material ∧ m ∉ s.tubes := by
    intro m hm
    obtain ⟨i1, _, i3, _, i5⟩ := createTubes_ids base _ m hm
    refine ⟨by omega, by omega, by omega, fun hold => ?_⟩
    have := (h.fresh m hold).1
    omega
  refine ⟨createTubes_length _ _, by rw [c8]; exact createTubes_nodup _ _, ?_, ?_, ?_⟩
  · rw [c8]
    refine attachedTubes_caps_append _ _ _ ?_ e3
    intro x hx
    split_ifs at hx <;> simp at hx
    exact hx
  · rw [c8]
    exact hnew
  · intro m hm
    refine ⟨?_, ?_, ?_⟩
    · rw [e3, List.mem_append, List.mem_map]
      rintro (hx | ⟨m2, hm2, hmm⟩)
      · split_ifs at hx <;> simp at hx
      · injection hmm with hmm
        rw [hmm] at hm2
        exact (hnew m hm2).2.2.2 hm
    · rw [e4]
      exact (c9 _).2 (Or.inr ⟨m, hm, rfl⟩)
    · rw [e5]
      exact (c10 _).2 (Or.inr ⟨m, hm, rfl⟩)

/-- C6: from every reachable state, a rebuild whose layout is not degenerate
returns with exactly six tube meshes tracked and attached to `group`, all
created by it, and with every tube mesh tracked before removed from `group` and
its geometry and material released; a second rebuild with the same parameters
again leaves exactly six tube meshes attached, none from the first. -/
theorem rebuild_replaces_tubes (events : List Event) (rawLength rawFace rawHole : JSNum)
    (hpos : 0 < (deriveLayout (sanitizeParameters rawLength rawFace rawHole)).lineSegmentLength) :
    ((addSerpentineCopies (run events) rawLength rawFace rawHole).tubes.length = 6 ∧
      (addSerpentineCopies (run events) rawLength rawFace rawHole).tubes.Nodup ∧
      (addSerpentineCopies (run events) rawLength rawFace rawHole).attachedTubes =
        (addSerpentineCopies (run events) rawLength rawFace rawHole).tubes ∧
      (∀ m ∈ (addSerpentineCopies (run events) rawLength rawFace rawHole).tubes,
        (run events).nextId ≤ m.id ∧ (run events).nextId ≤ m.geometry ∧
        (run events).nextId ≤ m.material ∧ m ∉ (run events).tubes) ∧
      (∀ m ∈ (run events).tubes,
        Child.tube m ∉ (addSerpentineCopies (run events) rawLength rawFace rawHole).group ∧
        m.geometry ∈
          (addSerpentineCopies (run events) rawLength rawFace rawHole).disposedGeometries ∧
        m.material ∈
          (addSerpentineCopies (run events) rawLength rawFace rawHole).disposedMaterials)) ∧
    ((addSerpentineCopies (addSerpentineCopies (run events) rawLength rawFace rawHole)
        rawLength rawFace rawHole).tubes.length = 6 ∧
      (addSerpentineCopies (addSerpentineCopies (run events) rawLength rawFace rawHole)
        rawLength rawFace rawHole).attachedTubes =
        (addSerpentineCopies (addSerpentineCopies (run events) rawLength rawFace rawHole)
          rawLength rawFace rawHole).tubes ∧
      (∀ m ∈ (addSerpentineCopies (addSerpentineCopies (run events) rawLength rawFace rawHole)
          rawLength rawFace rawHole).tubes,
        m ∉ (addSerpentineCopies (run events) rawLength rawFace rawHole).tubes) ∧
      (∀ m ∈ (addSerpentineCopies (run events) rawLength rawFace rawHole).tubes,
        m.geometry ∈ (addSerpentineCopies
          (addSerpentineCopies (run events) rawLength rawFace rawHole)
          rawLength rawFace rawHole).disposedGeometries ∧
        m.material ∈ (addSerpentineCopies
          (addSerpentineCopies (run events) rawLength rawFace rawHole)
          rawLength rawFace rawHole).disposedMaterials)) := by
  have h1 := addSerpentineCopies_publishes (run events) (run_inv events) rawLength rawFace
    rawHole hpos
  have hinv := addSerpentineCopies_inv (run events) (run_inv events) rawLength rawFace rawHole
  obtain ⟨q1, _, q3, q4, q5⟩ := addSerpentineCopies_publishes _ hinv rawLength rawFace rawHole hpos
  exact ⟨h1, q1, q3, fun m hm => (q4 m hm).2.2.2, fun m hm => (q5 m hm).2⟩

/-- C6 at the default parameters `(85.75, 0.7, 0.5)` from the initial state:
two rebuilds in succession leave six tube meshes tracked and attached. -/
theorem rebuild_replaces_tubes_witness :
    0 < (deriveLayout (sanitizeParameters (.fin 85.75) (.fin 0.7) (.fin 0.5))).lineSegmentLength ∧
    (addSerpentineCopies (addSerpentineCopies (run []) (.fin 85.75) (.fin 0.7) (.fin 0.5))
        (.fin 85.75) (.fin 0.7) (.fin 0.5)).tubes.length = 6 ∧
    (addSerpentineCopies (addSerpentineCopies (run []) (.fin 85.75) (.fin 0.7) (.fin 0.5))
        (.fin 85.75) (.fin 0.7) (.fin 0.5)).attachedTubes =
      (addSerpentineCopies (addSerpentineCopies (run []) (.fin 85.75) (.fin 0.7) (.fin 0.5))
        (.fin 85.75) (.fin 0.7) (.fin 0.5)).tubes :=
  ⟨default_lineSegmentLength_pos,
    (rebuild_replaces_tubes [] (.fin 85.75) (.fin 0.7) (.fin 0.5)
      default_lineSegmentLength_pos).2.1,
    (rebuild_replaces_tubes [] (.fin 85.75) (.fin 0.7) (.fin 0.5)
      default_lineSegmentLength_pos).2.2.1⟩

/-- Running reactions changes neither the template nor the promise nor the
count of loads. -/
theorem foldl_ensureCaps_frame (l : List CapRequest) (s : State) :
    (l.foldl ensureCaps s).capTemplate = s.capTemplate ∧
    (l.foldl ensureCaps s).capLoadPromise = s.capLoadPromise ∧
    (l.foldl ensureCaps s).loadCalls = s.loadCalls ∧
    (l.foldl ensureCaps s).tubes = s.tubes ∧
    (l.foldl ensureCaps s).disposedMaterials = s.disposedMaterials := by
  induction l generalizing s with
  | nil => exact ⟨rfl, rfl, rfl, rfl, rfl⟩
  | cons a l ih =>
    obtain ⟨e1, _, e3, e4, e5, _, e7, _⟩ := ensureCaps_spec s a
    obtain ⟨i1, i2, i3, i4, i5⟩ := ih (ensureCaps s a)
    simp only [List.foldl_cons]
    rw [i1, i2, i3, i4, i5]
    exact ⟨e3, e4, e5, e1, e7⟩

/-- A rebuild keeps the template, the identity of a stored promise and its
status. -/
theorem addSerpentineCopies_load_frame (s : State) (h : s.Inv) (a b c : JSNum) :
    (addSerpentineCopies s a b c).capTemplate = s.capTemplate ∧
    (∀ q, s.capLoadPromise = some q →
      ∃ q2, (addSerpentineCopies s a b c).capLoadPromise = some q2 ∧ q2.id = q.id ∧
        q2.status = q.status) := by
  obtain ⟨c1, c2, _, _, c5, c6, _⟩ := cleared_spec s h
  unfold addSerpentineCopies
  dsimp only
  split_ifs
  · exact ⟨c5, fun q hq => ⟨q, by rw [c6, hq], rfl, rfl⟩⟩
  · obtain ⟨base, _, _, _, _, _, _, e6, _, _, e9, _⟩ :=
      buildAndPublish_spec _ (cleared_inv s h) c1 c2 (sanitizeParameters a b c)
        (deriveLayout (sanitizeParameters a b c))
    refine ⟨by rw [e6, c5], fun q hq => ?_⟩
    rw [← c6] at hq
    exact e9 q hq

/-- Every event keeps a loaded template loaded, keeps the identity of a stored
promise, and keeps the status of a settled promise. -/
theorem step_load_frame (s : State) (h : s.Inv) (e : Event) :
    (s.capTemplate = true → (step s e).capTemplate = true) ∧
    (∀ q, s.capLoadPromise = some q →
      ∃ q2, (step s e).capLoadPromise = some q2 ∧ q2.id = q.id ∧
        (q.status ≠ .pending → q2.status = q.status)) := by
  cases e with
  | rebuild a b c =>
    obtain ⟨f1, f2⟩ := addSerpentineCopies_load_frame s h a b c
    refine ⟨fun hT => by rw [← hT]; exact f1, fun q hq => ?_⟩
    obtain ⟨q2, h1, h2, h3⟩ := f2 q hq
    exact ⟨q2, h1, h2, fun _ => h3⟩
  | loadSuccess =>
    simp only [step, onLoadSuccess]
    cases hp : s.capLoadPromise with
    | none =>
      exact ⟨id, fun q hq => by cases hq⟩
    | some p =>
      dsimp only
      split_ifs with hs
      · obtain ⟨i1, i2, _⟩ := foldl_ensureCaps_frame p.reactions
          { s with capTemplate := true,
                   capLoadPromise := some { p with status := .fulfilled, reactions := [] } }
        rw [i1, i2]
        refine ⟨fun _ => rfl, fun q hq => ?_⟩
        simp only [Option.some.injEq] at hq
        subst hq
        exact ⟨_, rfl, rfl, fun hne => absurd hs hne⟩
      · refine ⟨id, fun q hq => ?_⟩
        rw [hp]
        exact ⟨q, hq, rfl, fun _ => rfl⟩
  | loadError =>
    simp only [step, onLoadError]
    cases hp : s.capLoadPromise with
    | none =>
      exact ⟨id, fun q hq => by cases hq⟩
    | some p =>
      dsimp only
      split_ifs with hs
      · refine ⟨id, fun q hq => ?_⟩
        simp only [Option.some.injEq] at hq
        subst hq
        exact ⟨_, rfl, rfl, fun hne => absurd hs hne⟩
      · refine ⟨id, fun q hq => ?_⟩
        rw [hp]
        exact ⟨q, hq, rfl, fun _ => rfl⟩

/-- The state after one more event. -/
theorem run_append_singleton (events : List Event) (e : Event) :
    run (events ++ [e]) = step (run events) e := by
  simp [run, List.foldl_append]

/-- C8: over every sequence of rebuilds and load outcomes `objLoader.load` is
called at most once.  While the load is pending `loadCapTemplate` returns the
stored promise and starts nothing; once the template is loaded it returns the
cached template and starts nothing; after a failure it starts nothing; and no
event replaces the stored promise, resets a settled one or drops the loaded
template. -/
theorem cap_load_issued_at_most_once (events : List Event) :
    (run events).loadCalls ≤ 1 ∧
    (∀ q, (run events).capLoadPromise = some q → q.status = .pending →
      loadCapTemplate (run events) = (.promise q.id, run events)) ∧
    ((run events).capTemplate = true →
      loadCapTemplate (run events) = (.resolvedTemplate, run events)) ∧
    (∀ q, (run events).capLoadPromise = some q → q.status = .rejected →
      (loadCapTemplate (run events)).2 = run events) ∧
    (∀ e, (run events).capTemplate = true → (run (events ++ [e])).capTemplate = true) ∧
    (∀ e q, (run events).capLoadPromise = some q →
      ∃ q2, (run (events ++ [e])).capLoadPromise = some q2 ∧ q2.id = q.id ∧
        (q.status ≠ .pending → q2.status = q.status)) := by
  have h := run_inv events
  refine ⟨?_, ?_, ?_, ?_, ?_, ?_⟩
  · rw [h.load_once]
    split_ifs <;> omega
  · intro q hq hs
    have hF := h.pending_no_template q hq hs
    simp [loadCapTemplate, hF, hq]
  · intro hT
    simp [loadCapTemplate, hT]
  · intro q hq _
    unfold loadCapTemplate
    split_ifs
    · rfl
    · rw [hq]
  · intro e hT
    rw [run_append_singleton]
    exact (step_load_frame _ h e).1 hT
  · intro e q hq
    rw [run_append_singleton]
    exact (step_load_frame _ h e).2 q hq

/-- With length `1` and face `0.7` the layout is degenerate. -/
theorem short_lineSegmentLength_nonpos :
    (deriveLayout (sanitizeParameters (.fin 1) (.fin 0.7) (.fin 0.5))).lineSegmentLength ≤ 0 := by
  rw [sanitizeParameters_of_valid _ _ _ (by norm_num) (by norm_num) (by norm_num) (by norm_num)]
  norm_num [deriveLayout, getLineSegmentLength, desiredSurfaceGap, MathPI]

/-- The request captured by the first rebuild of the failing run. -/
theorem run_valid_rebuild :
    run [.rebuild (.fin 85.75) (.fin 0.7) (.fin 0.5)] =
      { group := (createTubes 2 0).map Child.tube, tubes := createTubes 2 0, cap1 := none,
        cap2 := none, capTemplate := false,
        capLoadPromise := some { id := 1, status := .pending, reactions :=
          [{ lineSegmentLength :=
               (deriveLayout (sanitizeParameters (.fin 85.75) (.fin 0.7) (.fin 0.5))).lineSegmentLength,
             verticalGap :=
               (deriveLayout (sanitizeParameters (.fin 85.75) (.fin 0.7) (.fin 0.5))).verticalGap,
             holeSize := (sanitizeParameters (.fin 85.75) (.fin 0.7) (.fin 0.5)).hole,
             tubeMaterial := 0 }] },
        loadCalls := 1, disposedGeometries := [], disposedMaterials := [], nextId := 14 } := by
  have hA := not_le.mpr default_lineSegmentLength_pos
  simp only [run, List.foldl, step, addSerpentineCopies, if_neg hA]
  simp [detachCapsFromGroup, disposeExistingTubes, State.init, buildAndPublish,
    loadCapTemplateThenEnsureCaps, loadCapTemplate]

/-- The state after a valid rebuild followed by a degenerate one, the load
still pending: the scene is empty and the first material is released, while the
reaction of the first rebuild is still registered. -/
theorem run_valid_then_degenerate :
    run [.rebuild (.fin 85.75) (.fin 0.7) (.fin 0.5), .rebuild (.fin 1) (.fin 0.7) (.fin 0.5)] =
      { group := [], tubes := [], cap1 := none,
        cap2 := none, capTemplate := false,
        capLoadPromise := some { id := 1, status := .pending, reactions :=
          [{ lineSegmentLength :=
               (deriveLayout (sanitizeParameters (.fin 85.75) (.fin 0.7) (.fin 0.5))).lineSegmentLength,
             verticalGap :=
               (deriveLayout (sanitizeParameters (.fin 85.75) (.fin 0.7) (.fin 0.5))).verticalGap,
             holeSize := (sanitizeParameters (.fin 85.75) (.fin 0.7) (.fin 0.5)).hole,
             tubeMaterial := 0 }] },
        loadCalls := 1, disposedGeometries := [12, 10, 8, 6, 4, 2],
        disposedMaterials := [0, 0, 0, 0, 0, 0], nextId := 14 } := by
  have e := run_append_singleton [.rebuild (.fin 85.75) (.fin 0.7) (.fin 0.5)]
    (.rebuild (.fin 1) (.fin 0.7) (.fin 0.5))
  rw [List.singleton_append] at e
  rw [e, run_valid_rebuild]
  simp only [step, addSerpentineCopies, if_pos short_lineSegmentLength_nonpos]
  simp [detachCapsFromGroup, disposeExistingTubes, disposeTube, disposeMesh, createTubes]

/-- The state after a valid rebuild, a degenerate rebuild and then the success
of the load. -/
theorem run_valid_degenerate_loaded :
    run [.rebuild (.fin 85.75) (.fin 0.7) (.fin 0.5), .rebuild (.fin 1) (.fin 0.7) (.fin 0.5),
        .loadSuccess] =
      { group := [Child.cap1, Child.cap2], tubes := [],
        cap1 := some
          { material := some 0,
            position :=
              { x := -(deriveLayout
                  (sanitizeParameters (.fin 85.75) (.fin 0.7) (.fin 0.5))).lineSegmentLength / 2,
                y := (deriveLayout
                  (sanitizeParameters (.fin 85.75) (.fin 0.7) (.fin 0.5))).verticalGap / 2,
                z := 0 },
            rotationX := MathPI / 2, rotationZ := MathPI / 2,
            scale := 0.2 * (sanitizeParameters (.fin 85.75) (.fin 0.7) (.fin 0.5)).hole },
        cap2 := some
          { material := some 0,
            position :=
              { x := -(deriveLayout
                  (sanitizeParameters (.fin 85.75) (.fin 0.7) (.fin 0.5))).lineSegmentLength / 2,
                y := -(deriveLayout
                  (sanitizeParameters (.fin 85.75) (.fin 0.7) (.fin 0.5))).verticalGap,
                z := 0 },
            rotationX := MathPI / 2, rotationZ := MathPI / 2,
            scale := 0.2 * (sanitizeParameters (.fin 85.75) (.fin 0.7) (.fin 0.5)).hole },
        capTemplate := true,
        capLoadPromise := some { id := 1, status := .fulfilled, reactions := [] },
        loadCalls := 1, disposedGeometries := [12, 10, 8, 6, 4, 2],
        disposedMaterials := [0, 0, 0, 0, 0, 0], nextId := 14 } := by
  have e := run_append_singleton
    [.rebuild (.fin 85.75) (.fin 0.7) (.fin 0.5), .rebuild (.fin 1) (.fin 0.7) (.fin 0.5)]
    .loadSuccess
  rw [List.cons_append, List.singleton_append] at e
  rw [e, run_valid_then_degenerate]
  simp [step, onLoadSuccess, ensureCaps, capTemplateClone]

/-- C7, at the failing run: a valid rebuild schedules the cap load, a degenerate
rebuild then releases the first material and leaves the scene empty, and the
success of the load afterwards attaches both caps, carrying that released
material, while no tube is tracked. -/
theorem stale_reaction_attaches_released_caps :
    (deriveLayout (sanitizeParameters (.fin 1) (.fin 0.7) (.fin 0.5))).lineSegmentLength ≤ 0 ∧
    (run [.rebuild (.fin 85.75) (.fin 0.7) (.fin 0.5),
        .rebuild (.fin 1) (.fin 0.7) (.fin 0.5)]).group = [] ∧
    (run [.rebuild (.fin 85.75) (.fin 0.7) (.fin 0.5), .rebuild (.fin 1) (.fin 0.7) (.fin 0.5),
        .loadSuccess]).tubes = [] ∧
    Child.cap1 ∈ (run [.rebuild (.fin 85.75) (.fin 0.7) (.fin 0.5),
        .rebuild (.fin 1) (.fin 0.7) (.fin 0.5), .loadSuccess]).group ∧
    Child.cap2 ∈ (run [.rebuild (.fin 85.75) (.fin 0.7) (.fin 0.5),
        .rebuild (.fin 1) (.fin 0.7) (.fin 0.5), .loadSuccess]).group ∧
    (run [.rebuild (.fin 85.75) (.fin 0.7) (.fin 0.5), .rebuild (.fin 1) (.fin 0.7) (.fin 0.5),
        .loadSuccess]).AttachedUsesReleased := by
  refine ⟨short_lineSegmentLength_nonpos, ?_, ?_, ?_, ?_, ?_⟩
  · rw [run_valid_then_degenerate]
  · rw [run_valid_degenerate_loaded]
  · rw [run_valid_degenerate_loaded]
    simp
  · rw [run_valid_degenerate_loaded]
    simp
  · rw [run_valid_degenerate_loaded]
    refine Or.inr (Or.inl ⟨by simp, _, 0, rfl, rfl, by simp⟩)

/-- The derived bend radius and vertical gap, written out. -/
theorem deriveLayout_values (p : GeometryParameters) :
    (deriveLayout p).bendRadius = (desiredSurfaceGap + p.face) / 2 ∧
    (deriveLayout p).verticalGap =
      2 * (deriveLayout p).bendRadius + desiredSurfaceGap + p.face := ⟨rfl, rfl⟩

/-- The vertical gap is four times the bend radius. -/
theorem verticalGap_eq_four_bendRadius (p : GeometryParameters) :
    (deriveLayout p).verticalGap = 4 * (deriveLayout p).bendRadius := by
  simp only [deriveLayout]
  ring

/-- The bend radius of a sanitised parameter set exceeds one half. -/
theorem bendRadius_pos (a b c : JSNum) :
    1 / 2 < (deriveLayout (sanitizeParameters a b c)).bendRadius := by
  have hh := sanitizeParameters_hole_pos a b c
  have hf := sanitizeParameters_face_gt a b c
  simp only [deriveLayout, desiredSurfaceGap]
  linarith

/-- C11: for all raw inputs to a rebuild, the derived
`bendRadius = (desiredSurfaceGap + faceSize) / 2` and
`verticalGap = 2 * bendRadius + desiredSurfaceGap + faceSize`, with
`desiredSurfaceGap = 1` and `faceSize` the sanitised face, are never negative. -/
theorem layout_never_negative (rawLength rawFace rawHole : JSNum) :
    desiredSurfaceGap = 1 ∧
    (deriveLayout (sanitizeParameters rawLength rawFace rawHole)).bendRadius =
      (desiredSurfaceGap + (sanitizeParameters rawLength rawFace rawHole).face) / 2 ∧
    (deriveLayout (sanitizeParameters rawLength rawFace rawHole)).verticalGap =
      2 * (deriveLayout (sanitizeParameters rawLength rawFace rawHole)).bendRadius +
        desiredSurfaceGap + (sanitizeParameters rawLength rawFace rawHole).face ∧
    0 ≤ (deriveLayout (sanitizeParameters rawLength rawFace rawHole)).bendRadius ∧
    0 ≤ (deriveLayout (sanitizeParameters rawLength rawFace rawHole)).verticalGap := by
  have hb := bendRadius_pos rawLength rawFace rawHole
  have hv := verticalGap_eq_four_bendRadius (sanitizeParameters rawLength rawFace rawHole)
  refine ⟨rfl, rfl, rfl, by linarith, ?_⟩
  rw [hv]
  linarith

/-- The clamped quantities of the generators, as the source computes them. -/
theorem cShape_values (outerSize innerSize : ℚ) :
    cShapeS outerSize = max outerSize 0.05 / 2 ∧
    cShapeInnerRadius innerSize = max (max innerSize 0.025 / 2) 0.0125 := by
  refine ⟨rfl, ?_⟩
  simp only [cShapeInnerRadius]
  norm_num

/-- C12: for every raw input, with `(face, hole)` from `sanitizeParameters`,
the clamped quantities used by both cross-section generators satisfy
`0 < innerRadius < s`, where `s = max(face, 0.05) / 2` and
`innerRadius = max(max(hole, 0.025) / 2, 0.0125)`; the split-line members of
both outlines run between `innerRadius` and `s`. -/
theorem bore_inside_profile (rawLength rawFace rawHole : JSNum) :
    cShapeS (sanitizeParameters rawLength rawFace rawHole).face =
      max (sanitizeParameters rawLength rawFace rawHole).face 0.05 / 2 ∧
    cShapeInnerRadius (sanitizeParameters rawLength rawFace rawHole).hole =
      max (max (sanitizeParameters rawLength rawFace rawHole).hole 0.025 / 2) 0.0125 ∧
    0 < cShapeInnerRadius (sanitizeParameters rawLength rawFace rawHole).hole ∧
    cShapeInnerRadius (sanitizeParameters rawLength rawFace rawHole).hole <
      cShapeS (sanitizeParameters rawLength rawFace rawHole).face ∧
    PathCurve.line ⟨0, cShapeInnerRadius (sanitizeParameters rawLength rawFace rawHole).hole⟩
        ⟨0, cShapeS (sanitizeParameters rawLength rawFace rawHole).face⟩ ∈
      (createLeftHalfCShape (sanitizeParameters rawLength rawFace rawHole).face
        (sanitizeParameters rawLength rawFace rawHole).hole).curves ∧
    PathCurve.line ⟨0, cShapeS (sanitizeParameters rawLength rawFace rawHole).face⟩
        ⟨0, cShapeInnerRadius (sanitizeParameters rawLength rawFace rawHole).hole⟩ ∈
      (createRightHalfCShape (sanitizeParameters rawLength rawFace rawHole).face
        (sanitizeParameters rawLength rawFace rawHole).hole).curves := by
  have hh := sanitizeParameters_hole_pos rawLength rawFace rawHole
  have hf := sanitizeParameters_face_gt rawLength rawFace rawHole
  obtain ⟨e1, e2⟩ := cShape_values (sanitizeParameters rawLength rawFace rawHole).face
    (sanitizeParameters rawLength rawFace rawHole).hole
  refine ⟨e1, e2, ?_, ?_, ?_, ?_⟩
  · rw [e2]
    exact lt_of_lt_of_le (by norm_num) (le_max_right _ _)
  · rw [e1, e2]
    generalize (sanitizeParameters rawLength rawFace rawHole).hole = h at hh hf ⊢
    generalize (sanitizeParameters rawLength rawFace rawHole).face = f at hf ⊢
    rw [max_lt_iff]
    constructor
    · rw [div_lt_div_iff_of_pos_right (by norm_num), max_lt_iff]
      constructor
      · exact lt_of_lt_of_le (by linarith) (le_max_left _ _)
      · exact lt_of_lt_of_le (by norm_num) (le_max_right _ _)
    · have : (0.05 : ℚ) ≤ max f 0.05 := le_max_right _ _
      linarith
  · rw [createLeftHalfCShape_curves]
    simp
  · rw [createRightHalfCShape_curves]
    simp

/-- With the template loaded, `ensureCaps` puts cap 1 at
`(-lineSegmentLength / 2, verticalGap / 2, 0)` and cap 2 at
`(-lineSegmentLength / 2, -verticalGap, 0)`. -/
theorem ensureCaps_positions (s : State) (hT : s.capTemplate = true) (req : CapRequest) :
    ∃ k1 k2, (ensureCaps s req).cap1 = some k1 ∧ (ensureCaps s req).cap2 = some k2 ∧
      k1.position = { x := -req.lineSegmentLength / 2, y := req.verticalGap / 2, z := 0 } ∧
      k2.position = { x := -req.lineSegmentLength / 2, y := -req.verticalGap, z := 0 } := by
  have hF : ¬ s.capTemplate = false := by simp [hT]
  unfold ensureCaps
  rw [if_neg hF]
  exact ⟨_, _, rfl, rfl, rfl, rfl⟩

/-- With the template loaded, the second part of a rebuild leaves the caps
where `ensureCaps` puts them for the layout of that rebuild. -/
theorem buildAndPublish_cap_positions (c : State) (hT : c.capTemplate = true)
    (p : GeometryParameters) (d : DerivedLayout) :
    ∃ k1 k2, (buildAndPublish c p d).cap1 = some k1 ∧ (buildAndPublish c p d).cap2 = some k2 ∧
      k1.position = { x := -d.lineSegmentLength / 2, y := d.verticalGap / 2, z := 0 } ∧
      k2.position = { x := -d.lineSegmentLength / 2, y := -d.verticalGap, z := 0 } := by
  simp only [buildAndPublish, ensureCaps, hT]
  simp

/-- The two free ends of the centerline: the first control point of the top
curve and the last control point of the bottom curve. -/
theorem buildCurves_free_ends (m : MathTrig) (p : GeometryParameters) :
    (buildCurves m (deriveLayout p)).curve1.points.head? =
      some { x := -(deriveLayout p).lineSegmentLength / 2, y := (deriveLayout p).verticalGap / 2,
             z := 0 } ∧
    (buildCurves m (deriveLayout p)).curve2.points.getLast? =
      some { x := -(deriveLayout p).lineSegmentLength / 2, y := -(deriveLayout p).verticalGap,
             z := 0 } := by
  have hv := verticalGap_eq_four_bendRadius p
  simp only [buildCurves]
  rw [createSerpentineCurve_first, createSerpentineCurve_last]
  constructor
  · congr 2
    ring
  · congr 2
    rw [hv]
    ring

/-- C14: for sanitised parameters with `lineSegmentLength > 0` the caps are
placed on the two free ends of the centerline.  Cap 1, at
`(-lineSegmentLength / 2, verticalGap / 2, 0)`, is on the first control point of
the top serpentine curve, and cap 2, at `(-lineSegmentLength / 2, -verticalGap,
0)`, is on the last control point of the bottom one, because
`verticalGap = 4 * bendRadius`: for every call of `ensureCaps` with the layout
of the rebuild, and for a rebuild from a reachable state that has the template. -/
theorem caps_on_free_ends (m : MathTrig) (events : List Event)
    (rawLength rawFace rawHole : JSNum)
    (hpos : 0 < (deriveLayout (sanitizeParameters rawLength rawFace rawHole)).lineSegmentLength)
    (hT : (run events).capTemplate = true) :
    (deriveLayout (sanitizeParameters rawLength rawFace rawHole)).verticalGap =
      4 * (deriveLayout (sanitizeParameters rawLength rawFace rawHole)).bendRadius ∧
    (∀ (s : State) (tubeMaterial : Nat), s.capTemplate = true →
      ∃ k1 k2,
        (ensureCaps s
          { lineSegmentLength :=
              (deriveLayout (sanitizeParameters rawLength rawFace rawHole)).lineSegmentLength,
            verticalGap := (deriveLayout (sanitizeParameters rawLength rawFace rawHole)).verticalGap,
            holeSize := (sanitizeParameters rawLength rawFace rawHole).hole,
            tubeMaterial := tubeMaterial }).cap1 = some k1 ∧
        (ensureCaps s
          { lineSegmentLength :=
              (deriveLayout (sanitizeParameters rawLength rawFace rawHole)).lineSegmentLength,
            verticalGap := (deriveLayout (sanitizeParameters rawLength rawFace rawHole)).verticalGap,
            holeSize := (sanitizeParameters rawLength rawFace rawHole).hole,
            tubeMaterial := tubeMaterial }).cap2 = some k2 ∧
        some k1.position =
          (buildCurves m
            (deriveLayout (sanitizeParameters rawLength rawFace rawHole))).curve1.points.head? ∧
        some k2.position =
          (buildCurves m
            (deriveLayout (sanitizeParameters rawLength rawFace rawHole))).curve2.points.getLast?) ∧
    (∃ k1 k2,
      (addSerpentineCopies (run events) rawLength rawFace rawHole).cap1 = some k1 ∧
      (addSerpentineCopies (run events) rawLength rawFace rawHole).cap2 = some k2 ∧
      k1.position =
        { x := -(deriveLayout (sanitizeParameters rawLength rawFace rawHole)).lineSegmentLength / 2,
          y := (deriveLayout (sanitizeParameters rawLength rawFace rawHole)).verticalGap / 2,
          z := 0 } ∧
      k2.position =
        { x := -(deriveLayout (sanitizeParameters rawLength rawFace rawHole)).lineSegmentLength / 2,
          y := -(deriveLayout (sanitizeParameters rawLength rawFace rawHole)).verticalGap,
          z := 0 } ∧
      some k1.position =
        (buildCurves m
          (deriveLayout (sanitizeParameters rawLength rawFace rawHole))).curve1.points.head? ∧
      some k2.position =
        (buildCurves m
          (deriveLayout (sanitizeParameters rawLength rawFace rawHole))).curve2.points.getLast?) := by
  obtain ⟨f1, f2⟩ := buildCurves_free_ends m (sanitizeParameters rawLength rawFace rawHole)
  refine ⟨verticalGap_eq_four_bendRadius _, ?_, ?_⟩
  · intro s mat hs
    obtain ⟨k1, k2, h1, h2, h3, h4⟩ := ensureCaps_positions s hs
      { lineSegmentLength :=
          (deriveLayout (sanitizeParameters rawLength rawFace rawHole)).lineSegmentLength,
        verticalGap := (deriveLayout (sanitizeParameters rawLength rawFace rawHole)).verticalGap,
        holeSize := (sanitizeParameters rawLength rawFace rawHole).hole,
        tubeMaterial := mat }
    refine ⟨k1, k2, h1, h2, ?_, ?_⟩
    · rw [f1, h3]
    · rw [f2, h4]
  · obtain ⟨_, _, _, _, c5, _⟩ := cleared_spec (run events) (run_inv events)
    have hr : addSerpentineCopies (run events) rawLength rawFace rawHole =
        buildAndPublish (disposeExistingTubes (detachCapsFromGroup (run events)))
          (sanitizeParameters rawLength rawFace rawHole)
          (deriveLayout (sanitizeParameters rawLength rawFace rawHole)) := by
      unfold addSerpentineCopies
      dsimp only
      rw [if_neg (not_le.mpr hpos)]
    obtain ⟨k1, k2, h1, h2, h3, h4⟩ := buildAndPublish_cap_positions
      (disposeExistingTubes (detachCapsFromGroup (run events))) (by rw [c5]; exact hT)
      (sanitizeParameters rawLength rawFace rawHole)
      (deriveLayout (sanitizeParameters rawLength rawFace rawHole))
    rw [hr]
    refine ⟨k1, k2, h1, h2, h3, h4, ?_, ?_⟩
    · rw [f1, h3]
    · rw [f2, h4]

/-- The radius `r` that `createMiddleConnectingCurve` computes for the layout of
a rebuild is the bend radius. -/
theorem layout_connector_radius (a b c : JSNum) :
    |0 + (deriveLayout (sanitizeParameters a b c)).verticalGap / 2
        - 2 * (deriveLayout (sanitizeParameters a b c)).bendRadius
        - (0 + -(deriveLayout (sanitizeParameters a b c)).verticalGap / 2)| / 2 =
      (deriveLayout (sanitizeParameters a b c)).bendRadius := by
  have hb := bendRadius_pos a b c
  rw [verticalGap_eq_four_bendRadius]
  rw [show (0 + 4 * (deriveLayout (sanitizeParameters a b c)).bendRadius / 2
        - 2 * (deriveLayout (sanitizeParameters a b c)).bendRadius
        - (0 + -(4 * (deriveLayout (sanitizeParameters a b c)).bendRadius) / 2))
      = 2 * (deriveLayout (sanitizeParameters a b c)).bendRadius by ring]
  rw [abs_of_pos (by linarith)]
  ring

/-- After the default rebuild and the success of the load the template is
loaded. -/
theorem run_valid_loaded_capTemplate :
    (run [.rebuild (.fin 85.75) (.fin 0.7) (.fin 0.5), .loadSuccess]).capTemplate = true := by
  have e := run_append_singleton [.rebuild (.fin 85.75) (.fin 0.7) (.fin 0.5)] .loadSuccess
  rw [List.singleton_append] at e
  rw [e, run_valid_rebuild]
  simp only [step, onLoadSuccess, if_true]
  exact (foldl_ensureCaps_frame _ _).1

/-- C14 at the default parameters `(85.75, 0.7, 0.5)`, for a rebuild after the
template has been loaded. -/
theorem caps_on_free_ends_witness :
    0 < (deriveLayout (sanitizeParameters (.fin 85.75) (.fin 0.7) (.fin 0.5))).lineSegmentLength ∧
    (run [.rebuild (.fin 85.75) (.fin 0.7) (.fin 0.5), .loadSuccess]).capTemplate = true ∧
    (∃ k1 k2,
      (addSerpentineCopies (run [.rebuild (.fin 85.75) (.fin 0.7) (.fin 0.5), .loadSuccess])
        (.fin 85.75) (.fin 0.7) (.fin 0.5)).cap1 = some k1 ∧
      (addSerpentineCopies (run [.rebuild (.fin 85.75) (.fin 0.7) (.fin 0.5), .loadSuccess])
        (.fin 85.75) (.fin 0.7) (.fin 0.5)).cap2 = some k2 ∧
      some k1.position =
        (buildCurves connectorEndsTrig
          (deriveLayout
            (sanitizeParameters (.fin 85.75) (.fin 0.7) (.fin 0.5)))).curve1.points.head? ∧
      some k2.position =
        (buildCurves connectorEndsTrig
          (deriveLayout
            (sanitizeParameters (.fin 85.75) (.fin 0.7) (.fin 0.5)))).curve2.points.getLast?) := by
  refine ⟨default_lineSegmentLength_pos, run_valid_loaded_capTemplate, ?_⟩
  obtain ⟨k1, k2, h1, h2, _, _, h5, h6⟩ :=
    (caps_on_free_ends connectorEndsTrig
      [.rebuild (.fin 85.75) (.fin 0.7) (.fin 0.5), .loadSuccess]
      (.fin 85.75) (.fin 0.7) (.fin 0.5) default_lineSegmentLength_pos
      run_valid_loaded_capTemplate).2.2
  exact ⟨k1, k2, h1, h2, h5, h6⟩

/-- The four straight runs of the centerline lie `2 * bendRadius =
desiredSurfaceGap + faceSize` apart, one below the other, and the radius of the
connector arc is the bend radius. -/
theorem runs_evenly_spaced (a b c : JSNum) :
    2 * (deriveLayout (sanitizeParameters a b c)).bendRadius =
      desiredSurfaceGap + (sanitizeParameters a b c).face ∧
    (0 + (deriveLayout (sanitizeParameters a b c)).verticalGap / 2) -
      (0 + (deriveLayout (sanitizeParameters a b c)).verticalGap / 2
        - 2 * (deriveLayout (sanitizeParameters a b c)).bendRadius) =
      2 * (deriveLayout (sanitizeParameters a b c)).bendRadius ∧
    (0 + (deriveLayout (sanitizeParameters a b c)).verticalGap / 2
        - 2 * (deriveLayout (sanitizeParameters a b c)).bendRadius) -
      (0 + -(deriveLayout (sanitizeParameters a b c)).verticalGap / 2) =
      2 * (deriveLayout (sanitizeParameters a b c)).bendRadius ∧
    (0 + -(deriveLayout (sanitizeParameters a b c)).verticalGap / 2) -
      (0 + -(deriveLayout (sanitizeParameters a b c)).verticalGap / 2
        - 2 * (deriveLayout (sanitizeParameters a b c)).bendRadius) =
      2 * (deriveLayout (sanitizeParameters a b c)).bendRadius ∧
    |0 + (deriveLayout (sanitizeParameters a b c)).verticalGap / 2
        - 2 * (deriveLayout (sanitizeParameters a b c)).bendRadius
        - (0 + -(deriveLayout (sanitizeParameters a b c)).verticalGap / 2)| / 2 =
      (deriveLayout (sanitizeParameters a b c)).bendRadius := by
  have hv := verticalGap_eq_four_bendRadius (sanitizeParameters a b c)
  refine ⟨?_, by ring, ?_, by ring, layout_connector_radius a b c⟩
  · simp only [deriveLayout]
    ring
  · rw [hv]
    ring

/-- The clearance between adjacent tube surfaces in terms of the sanitised
face: it is `desiredSurfaceGap` when the face is at least the clamp `0.05` of
the generators, and less than that below the clamp. -/
theorem surfaceClearance_eq (a b c : JSNum) :
    surfaceClearance (deriveLayout (sanitizeParameters a b c)) (sanitizeParameters a b c).face =
      desiredSurfaceGap + (sanitizeParameters a b c).face -
        max (sanitizeParameters a b c).face 0.05 ∧
    (0.05 ≤ (sanitizeParameters a b c).face →
      surfaceClearance (deriveLayout (sanitizeParameters a b c)) (sanitizeParameters a b c).face =
        desiredSurfaceGap) ∧
    ((sanitizeParameters a b c).face < 0.05 →
      surfaceClearance (deriveLayout (sanitizeParameters a b c)) (sanitizeParameters a b c).face <
        desiredSurfaceGap) := by
  have e : surfaceClearance (deriveLayout (sanitizeParameters a b c))
      (sanitizeParameters a b c).face =
      desiredSurfaceGap + (sanitizeParameters a b c).face -
        max (sanitizeParameters a b c).face 0.05 := by
    simp only [surfaceClearance, profileWidth, cShapeS, deriveLayout]
    ring
  refine ⟨e, fun h => ?_, fun h => ?_⟩
  · rw [e, max_eq_left h]
    ring
  · rw [e, max_eq_right h.le]
    linarith

/-- With length `85.75`, face `0.014` and hole `0.01` the sanitiser keeps the
input. -/
theorem thin_parameters :
    sanitizeParameters (.fin 85.75) (.fin 0.014) (.fin 0.01) =
      { hz := 85.75, face := 0.014, hole := 0.01 } :=
  sanitizeParameters_of_valid _ _ _ (by norm_num) (by norm_num) (by norm_num) (by norm_num)

/-- C13, at the failing input `(85.75, 0.014, 0.01)`: the rebuild does not
abort, the runs of the centerline lie `2 * bendRadius = 1.014` apart, the swept
profile is `0.05` wide because the generators clamp the face, its top and
bottom edges lying at `0.025` and `-0.025`, and the clearance between adjacent
tube surfaces is `0.964`, less than `desiredSurfaceGap = 1`. -/
theorem thin_tube_clearance_below_gap :
    0 < (deriveLayout
      (sanitizeParameters (.fin 85.75) (.fin 0.014) (.fin 0.01))).lineSegmentLength ∧
    (sanitizeParameters (.fin 85.75) (.fin 0.014) (.fin 0.01)).face = 0.014 ∧
    2 * (deriveLayout (sanitizeParameters (.fin 85.75) (.fin 0.014) (.fin 0.01))).bendRadius
      = 1.014 ∧
    PathCurve.line ⟨0, 0.025⟩ ⟨-0.025 + 0.0125, 0.025⟩ ∈
      (createLeftHalfCShape
        (sanitizeParameters (.fin 85.75) (.fin 0.014) (.fin 0.01)).face
        (sanitizeParameters (.fin 85.75) (.fin 0.014) (.fin 0.01)).hole).curves ∧
    PathCurve.line ⟨-0.025 + 0.0125, -0.025⟩ ⟨0, -0.025⟩ ∈
      (createLeftHalfCShape
        (sanitizeParameters (.fin 85.75) (.fin 0.014) (.fin 0.01)).face
        (sanitizeParameters (.fin 85.75) (.fin 0.014) (.fin 0.01)).hole).curves ∧
    profileWidth (sanitizeParameters (.fin 85.75) (.fin 0.014) (.fin 0.01)).face = 0.05 ∧
    surfaceClearance (deriveLayout (sanitizeParameters (.fin 85.75) (.fin 0.014) (.fin 0.01)))
      (sanitizeParameters (.fin 85.75) (.fin 0.014) (.fin 0.01)).face = 0.964 ∧
    surfaceClearance (deriveLayout (sanitizeParameters (.fin 85.75) (.fin 0.014) (.fin 0.01)))
      (sanitizeParameters (.fin 85.75) (.fin 0.014) (.fin 0.01)).face < desiredSurfaceGap := by
  rw [thin_parameters]
  have hs : cShapeS 0.014 = 0.025 := by norm_num [cShapeS]
  have hr : cShapeR 0.014 = 0.0125 := by norm_num [cShapeR]
  refine ⟨?_, rfl, ?_, ?_, ?_, ?_, ?_, ?_⟩
  · norm_num [deriveLayout, getLineSegmentLength, desiredSurfaceGap, MathPI]
  · norm_num [deriveLayout, desiredSurfaceGap]
  · rw [createLeftHalfCShape_curves, hs, hr]
    simp
  · rw [createLeftHalfCShape_curves, hs, hr]
    simp
  · norm_num [profileWidth, cShapeS]
  · norm_num [surfaceClearance, profileWidth, cShapeS, deriveLayout, desiredSurfaceGap]
  · norm_num [surfaceClearance, profileWidth, cShapeS, deriveLayout, desiredSurfaceGap]

end SpeakerPlayground